import Mathlib

/-!
Verification development for the Clemens IIgs 65C816 emulator core.

The definitions below are a shallow embedding of the core entry points of
the emulator source (the large C translation unit holding cpu_execute,
clemens_emulate_cpu, clemens_init, clemens_load_hex and
clemens_out_bin_data).  Machine integers are modelled as Nat with explicit
reductions modulo 256 and 65536 where the C code uses uint8_t and uint16_t
arithmetic.  Helper routines that live in headers that are not part of the
provided sources (clem_code.h, clem_mem.h, clem_util.h) are modelled from
the specification; each such definition carries a doc comment starting
with the words "Modelled from the spec".
-/

namespace Clemens

set_option maxRecDepth 4096

/-- Modelled from the spec: CLEM_UTIL_set16_lo (clem_util.h is not under
src).  Replaces the low byte of a 16-bit value, keeping the high byte, as
used throughout the executor for 8-bit register updates. -/
def CLEM_UTIL_set16_lo (v lo : Nat) : Nat :=
  v / 256 * 256 + lo % 256

/-- Processor status register P, one field per named bit of the source
bitfield kClemensCPUStatus_* (C=bit0, Z=bit1, I=bit2, D=bit3, X=bit4,
M=bit5, V=bit6, N=bit7, per the spec data model). -/
structure PReg where
  carry : Bool
  zero : Bool
  irqDisable : Bool
  decimal : Bool
  index : Bool
  memAcc : Bool
  overflow : Bool
  negative : Bool
deriving DecidableEq

/-- Packs the status register into its byte representation. -/
def pToByte (p : PReg) : Nat :=
  (if p.carry then 1 else 0) + (if p.zero then 2 else 0) +
  (if p.irqDisable then 4 else 0) + (if p.decimal then 8 else 0) +
  (if p.index then 16 else 0) + (if p.memAcc then 32 else 0) +
  (if p.overflow then 64 else 0) + (if p.negative then 128 else 0)

/-- Unpacks a status byte into the status register fields. -/
def pFromByte (b : Nat) : PReg :=
  ⟨b.testBit 0, b.testBit 1, b.testBit 2, b.testBit 3,
   b.testBit 4, b.testBit 5, b.testBit 6, b.testBit 7⟩

/-- Coarse CPU state variant of the source (kClemensCPUStateType_*). -/
inductive CPUStateType where
  | Reset
  | IRQ
  | NMI
  | Execute
deriving DecidableEq

/-- Register file of the Clemens65C816 structure. -/
structure Regs where
  A : Nat
  X : Nat
  Y : Nat
  S : Nat
  D : Nat
  PBR : Nat
  DBR : Nat
  PC : Nat
  IR : Nat
  P : PReg
deriving DecidableEq

/-- Pin-like flags of the Clemens65C816 structure. -/
structure Pins where
  resbIn : Bool
  irqbIn : Bool
  emulation : Bool
  readyOut : Bool
deriving DecidableEq

/-- Clock configuration of the machine (tspec in the source). -/
structure ClemensTSpec where
  clocks_step : Nat
  clocks_step_fast : Nat
  clocks_step_mega2 : Nat
  clocks_spent : Nat
deriving DecidableEq

/-- Machine state.  The field mem is the flat 24-bit address space seen by
the bus primitives (bank * 65536 + offset); mega2e0 and mega2e1 hold the
two slow-RAM bank contents touched by clemens_init.  fpiBankUsed mirrors
the fpi_bank_used table.  resbCounter mirrors clem->resb_counter. -/
structure Machine where
  regs : Regs
  pins : Pins
  enabled : Bool
  stateType : CPUStateType
  cyclesSpent : Nat
  mem : Nat → Nat
  mega2e0 : Nat → Nat
  mega2e1 : Nat → Nat
  fpiBankUsed : Nat → Bool
  tspec : ClemensTSpec
  resbCounter : Int

/-- Internal cycles: _clem_cycle advances cycles_spent by the given count. -/
def _clem_cycle (m : Machine) (n : Nat) : Machine :=
  { m with cyclesSpent := m.cyclesSpent + n }

/-- Flat 24-bit address of bank:adr. -/
def memAddr (bank adr : Nat) : Nat :=
  bank % 256 * 65536 + adr % 65536

/-- Modelled from the spec: clem_read, the bus read primitive (clem_mem is
not under src).  Returns one byte from bank:adr and charges one cycle
(spec 4.1: cycles_spent increments by exactly one per bus cycle). -/
def clem_read (m : Machine) (adr bank : Nat) : Nat × Machine :=
  (m.mem (memAddr bank adr) % 256, _clem_cycle m 1)

/-- Modelled from the spec: clem_write, the bus write primitive (clem_mem
is not under src).  Stores one byte at bank:adr and charges one cycle. -/
def clem_write (m : Machine) (v adr bank : Nat) : Machine :=
  { m with
    mem := fun a => if a = memAddr bank adr then v % 256 else m.mem a,
    cyclesSpent := m.cyclesSpent + 1 }

/-- Modelled from the spec: _cpu_sp_dec (clem_code.h is not under src).
Decrements S; in emulation mode S wraps inside page 0x01 (spec 4.2),
otherwise it wraps over the full 16 bits. -/
def _cpu_sp_dec (m : Machine) : Machine :=
  let s := (65535 + m.regs.S) % 65536
  let s := if m.pins.emulation then CLEM_UTIL_set16_lo m.regs.S s else s
  { m with regs := { m.regs with S := s } }

/-- Modelled from the spec: _cpu_sp_dec2, two stack-pointer decrements. -/
def _cpu_sp_dec2 (m : Machine) : Machine :=
  _cpu_sp_dec (_cpu_sp_dec m)

/-- Modelled from the spec: _cpu_sp_dec3, three stack-pointer decrements. -/
def _cpu_sp_dec3 (m : Machine) : Machine :=
  _cpu_sp_dec (_cpu_sp_dec2 m)

/-- Modelled from the spec: _cpu_sp_inc (clem_code.h is not under src).
Increments S with the same emulation-mode page wrap as the decrement. -/
def _cpu_sp_inc (m : Machine) : Machine :=
  let s := (m.regs.S + 1) % 65536
  let s := if m.pins.emulation then CLEM_UTIL_set16_lo m.regs.S s else s
  { m with regs := { m.regs with S := s } }

/-- Modelled from the spec: _cpu_sp_inc2, two stack-pointer increments. -/
def _cpu_sp_inc2 (m : Machine) : Machine :=
  _cpu_sp_inc (_cpu_sp_inc m)

/-- Modelled from the spec: _cpu_sp_inc3, three stack-pointer increments. -/
def _cpu_sp_inc3 (m : Machine) : Machine :=
  _cpu_sp_inc (_cpu_sp_inc2 m)

/-- Modelled from the spec: _cpu_p_flags_apply_m_x (clem_code.h is not
under src).  When the X status flag is set, the high bytes of X and Y are
zeroed (spec 3: setting X=1 zeros the high bytes of X and Y). -/
def _cpu_p_flags_apply_m_x (m : Machine) : Machine :=
  if m.regs.P.index then
    { m with regs := { m.regs with X := m.regs.X % 256, Y := m.regs.Y % 256 } }
  else m

/-- Modelled from the spec: _cpu_p_flags_n_z_data (clem_code.h is not
under src).  Sets N and Z from an 8-bit value (flag law, spec 8). -/
def _cpu_p_flags_n_z_data (m : Machine) (v : Nat) : Machine :=
  { m with regs := { m.regs with
      P := { m.regs.P with zero := v % 256 == 0, negative := (v % 256).testBit 7 } } }

/-- Modelled from the spec: _cpu_p_flags_n_z_data_16 (clem_code.h is not
under src).  Sets N and Z from a 16-bit value. -/
def _cpu_p_flags_n_z_data_16 (m : Machine) (v : Nat) : Machine :=
  { m with regs := { m.regs with
      P := { m.regs.P with zero := v % 65536 == 0, negative := (v % 65536).testBit 15 } } }

/-- Modelled from the spec: _clem_read_pba (clem_code.h is not under src).
Reads one operand byte at PBR:pc and increments the working PC. -/
def _clem_read_pba (m : Machine) (pc : Nat) : Nat × Nat × Machine :=
  let r := clem_read m pc m.regs.PBR
  (r.1, (pc + 1) % 65536, r.2)

/-- Modelled from the spec: _clem_read_pba_16, two operand bytes, low byte
first (spec 4.2 ordering guarantees). -/
def _clem_read_pba_16 (m : Machine) (pc : Nat) : Nat × Nat × Machine :=
  let r1 := _clem_read_pba m pc
  let r2 := _clem_read_pba r1.2.2 r1.2.1
  (r2.1 % 256 * 256 + r1.1 % 256, r2.2.1, r2.2.2)

/-- Modelled from the spec: _clem_read_pba_816, a one or two byte
immediate operand depending on the active width (spec 4.4). -/
def _clem_read_pba_816 (m : Machine) (pc : Nat) (is8 : Bool) : Nat × Nat × Machine :=
  if is8 then _clem_read_pba m pc else _clem_read_pba_16 m pc

/-- Modelled from the spec: _clem_read_16, a 16-bit little-endian data
read at adr and adr+1 of the given bank. -/
def _clem_read_16 (m : Machine) (adr bank : Nat) : Nat × Machine :=
  let r1 := clem_read m adr bank
  let r2 := clem_read r1.2 ((adr + 1) % 65536) bank
  (r2.1 % 256 * 256 + r1.1 % 256, r2.2)

/-- Modelled from the spec: _clem_write_16, a 16-bit little-endian data
write at adr and adr+1 of the given bank. -/
def _clem_write_16 (m : Machine) (v adr bank : Nat) : Machine :=
  let m := clem_write m (v % 256) adr bank
  clem_write m (v / 256 % 256) ((adr + 1) % 65536) bank

/-- Modelled from the spec: _cpu_ldxy (clem_code.h is not under src).
Loads an index register at the active index width (spec 4.4 width
selection): the 8-bit form replaces only the low byte, the 16-bit form
the whole register; N and Z are set from the loaded value.  The source
passes a pointer to X or to Y; here the choice is the toX flag. -/
def _cpu_ldxy (m : Machine) (v : Nat) (toX x8 : Bool) : Machine :=
  if x8 then
    _cpu_p_flags_n_z_data
      (if toX then { m with regs := { m.regs with X := CLEM_UTIL_set16_lo m.regs.X v } }
       else { m with regs := { m.regs with Y := CLEM_UTIL_set16_lo m.regs.Y v } }) v
  else
    _cpu_p_flags_n_z_data_16
      (if toX then { m with regs := { m.regs with X := v % 65536 } }
       else { m with regs := { m.regs with Y := v % 65536 } }) v

/-- Modelled from the spec: _clem_read_pba_mode_abs (clem_code.h is not
under src).  Absolute mode: two operand bytes form the 16-bit effective
address (spec 4.3), low byte first. -/
def _clem_read_pba_mode_abs (m : Machine) (pc : Nat) : Nat × Nat × Machine :=
  _clem_read_pba_16 m pc

/-- Modelled from the spec: _clem_read_pba_mode_dp (clem_code.h is not
under src).  Direct-page mode: one operand byte; the bank-0 effective
address adds D and the index (clipped to the active index width),
wrapping modulo 256 when the low byte of D is zero and modulo 65536
otherwise (spec 4.2 address wrapping), with the documented one-cycle
penalty when the low byte of D is nonzero (spec 4.1).  Returns the
effective address, the operand byte, the advanced pc and the machine. -/
def _clem_read_pba_mode_dp (m : Machine) (pc idx : Nat) (idx8 : Bool) :
    Nat × Nat × Nat × Machine :=
  let r := _clem_read_pba m pc
  let i := if idx8 then idx % 256 else idx % 65536
  let adr :=
    if m.regs.D % 256 = 0 then (m.regs.D + (r.1 + i) % 256) % 65536
    else (m.regs.D + r.1 + i) % 65536
  (adr, r.1, r.2.1, _clem_cycle r.2.2 (if m.regs.D % 256 = 0 then 0 else 1))

/-- Modelled from the spec: _clem_read_data_816 (clem_code.h is not under
src).  An 8 or 16-bit data read at bank:adr (spec 4.4 width selection);
the 16-bit form fetches the low byte first and the bank byte may be
incremented across the 64 KiB boundary (spec 4.2). -/
def _clem_read_data_816 (m : Machine) (adr bank : Nat) (is8 : Bool) :
    Nat × Machine :=
  if is8 then clem_read m adr bank
  else
    let r1 := clem_read m (adr % 65536) bank
    let r2 := clem_read r1.2 ((adr + 1) % 65536) (bank + (adr + 1) / 65536)
    (r2.1 % 256 * 256 + r1.1 % 256, r2.2)

/-- Modelled from the spec: _clem_read_data_indexed_816 (clem_code.h is
not under src).  Indexed data read: the index, clipped to the active
index width (spec 4.4), is added to the address; the bank byte may be
incremented across the 64 KiB boundary and crossing a page charges the
documented extra read cycle (spec 4.1 and 4.2). -/
def _clem_read_data_indexed_816 (m : Machine) (adr idx bank : Nat)
    (is8 idx8 : Bool) : Nat × Machine :=
  let i := if idx8 then idx % 256 else idx % 65536
  let eff := adr % 65536 + i
  let m := _clem_cycle m (if adr % 65536 / 256 = eff / 256 then 0 else 1)
  _clem_read_data_816 m (eff % 65536) (bank + eff / 65536) is8

/-- Modelled from the spec: vector addresses live in bank 0 at fixed
offsets distinct for emulation vs native and for each source (spec 4.5;
the numeric constants are in a header that is not under src and follow
the WDC 65C816 vector table; FFFC/FFFD is named explicitly by spec 8). -/
def CLEM_6502_COP_VECTOR_LO_ADDR : Nat := 0xFFF4

/-- Emulation-mode COP vector high address. -/
def CLEM_6502_COP_VECTOR_HI_ADDR : Nat := 0xFFF5

/-- Emulation-mode NMI vector low address. -/
def CLEM_6502_NMI_VECTOR_LO_ADDR : Nat := 0xFFFA

/-- Emulation-mode NMI vector high address. -/
def CLEM_6502_NMI_VECTOR_HI_ADDR : Nat := 0xFFFB

/-- Emulation-mode reset vector low address (spec 8: FFFC). -/
def CLEM_6502_RESET_VECTOR_LO_ADDR : Nat := 0xFFFC

/-- Emulation-mode reset vector high address (spec 8: FFFD). -/
def CLEM_6502_RESET_VECTOR_HI_ADDR : Nat := 0xFFFD

/-- Emulation-mode IRQ and BRK vector low address. -/
def CLEM_6502_IRQBRK_VECTOR_LO_ADDR : Nat := 0xFFFE

/-- Emulation-mode IRQ and BRK vector high address. -/
def CLEM_6502_IRQBRK_VECTOR_HI_ADDR : Nat := 0xFFFF

/-- Native-mode COP vector low address. -/
def CLEM_65816_COP_VECTOR_LO_ADDR : Nat := 0xFFE4

/-- Native-mode COP vector high address. -/
def CLEM_65816_COP_VECTOR_HI_ADDR : Nat := 0xFFE5

/-- Native-mode BRK vector low address. -/
def CLEM_65816_BRK_VECTOR_LO_ADDR : Nat := 0xFFE6

/-- Native-mode BRK vector high address. -/
def CLEM_65816_BRK_VECTOR_HI_ADDR : Nat := 0xFFE7

/-- Native-mode NMI vector low address. -/
def CLEM_65816_NMI_VECTOR_LO_ADDR : Nat := 0xFFEA

/-- Native-mode NMI vector high address. -/
def CLEM_65816_NMI_VECTOR_HI_ADDR : Nat := 0xFFEB

/-- Native-mode IRQ vector low address. -/
def CLEM_65816_IRQB_VECTOR_LO_ADDR : Nat := 0xFFEE

/-- Native-mode IRQ vector high address. -/
def CLEM_65816_IRQB_VECTOR_HI_ADDR : Nat := 0xFFEF

/-- Modelled from the spec: _clem_read_interrupt_vector (clem_code.h is
not under src).  Reads the low byte from vlo and the high byte from vhi
in bank 0 (spec glossary: vector pull). -/
def _clem_read_interrupt_vector (m : Machine) (vlo vhi : Nat) : Nat × Machine :=
  let r1 := clem_read m vlo 0
  let r2 := clem_read r1.2 vhi 0
  (r2.1 % 256 * 256 + r1.1 % 256, r2.2)

/-- Modelled from the spec: the status byte pushed for interrupts; in
emulation mode the break bit appears in the pushed byte for BRK
(spec 3 and 4.4). -/
def pushedStatusByte (p : PReg) (emu isBrk : Bool) : Nat :=
  pToByte p + (if emu && isBrk && !p.memAcc then 32 else 0)

/-- Modelled from the spec: _clem_irq_brk_setup (clem_code.h is not under
src).  Pushes PBR (native mode only), PC high, PC low and the status byte,
sets I=1, clears D, clears PBR, then reads the new PC low byte from
address vlo and high byte from address vhi in bank 0 (spec 4.4 and 4.5).
Returns the new PC together with the machine. -/
def _clem_irq_brk_setup (m : Machine) (pc vlo vhi : Nat) (isBrk : Bool) : Nat × Machine :=
  let m :=
    if m.pins.emulation then m
    else _cpu_sp_dec (clem_write m m.regs.PBR m.regs.S 0)
  let m := _cpu_sp_dec (clem_write m (pc / 256 % 256) m.regs.S 0)
  let m := _cpu_sp_dec (clem_write m (pc % 256) m.regs.S 0)
  let m := _cpu_sp_dec (clem_write m (pushedStatusByte m.regs.P m.pins.emulation isBrk) m.regs.S 0)
  let m := { m with regs := { m.regs with
      P := { m.regs.P with irqDisable := true, decimal := false }, PBR := 0 } }
  _clem_read_interrupt_vector m vlo vhi

/-- Modelled from the spec: _clem_opc_pull_status (clem_code.h is not
under src).  Pulls the status byte; in emulation mode the restored status
leaves the M and X bits forced (spec 4.4 RTI), and setting X=1 zeros the
X and Y high bytes (spec 3). -/
def _clem_opc_pull_status (m : Machine) : Machine :=
  let t := (m.regs.S + 1) % 65536
  let t := if m.pins.emulation then CLEM_UTIL_set16_lo m.regs.S t else t
  let r := clem_read m t 0
  let m := _cpu_sp_inc r.2
  let p := pFromByte r.1
  let p := if m.pins.emulation then { p with memAcc := true, index := true } else p
  _cpu_p_flags_apply_m_x { m with regs := { m.regs with P := p } }

/-- Modelled from the spec: _clem_irq_brk_return (clem_code.h is not under
src).  RTI pops status and PC and, in native mode, PBR (spec 4.4).
Returns the popped PC. -/
def _clem_irq_brk_return (m : Machine) : Nat × Machine :=
  let m := _clem_opc_pull_status m
  let t1 := (m.regs.S + 1) % 65536
  let t1 := if m.pins.emulation then CLEM_UTIL_set16_lo m.regs.S t1 else t1
  let r1 := clem_read m t1 0
  let t2 := (t1 + 1) % 65536
  let t2 := if m.pins.emulation then CLEM_UTIL_set16_lo m.regs.S t2 else t2
  let r2 := clem_read r1.2 t2 0
  let m := _cpu_sp_inc2 r2.2
  let pc := r2.1 % 256 * 256 + r1.1 % 256
  if m.pins.emulation then (pc, m)
  else
    let t3 := (m.regs.S + 1) % 65536
    let r3 := clem_read m t3 0
    let m := _cpu_sp_inc r3.2
    (pc, { m with regs := { m.regs with PBR := r3.1 % 256 } })

/-- Modelled from the spec: _clem_opc_push_pc16 (clem_code.h is not under
src).  Pushes a 16-bit program counter, high byte first. -/
def _clem_opc_push_pc16 (m : Machine) (pc : Nat) : Machine :=
  let m := clem_write m (pc / 256 % 256) m.regs.S 0
  let t := (65535 + m.regs.S) % 65536
  let t := if m.pins.emulation then CLEM_UTIL_set16_lo m.regs.S t else t
  let m := clem_write m (pc % 256) t 0
  _cpu_sp_dec2 m

/-- Modelled from the spec: _clem_opc_push_reg_816 (clem_code.h is not
under src).  Pushes a register at the active width, one internal cycle
plus one write per byte. -/
def _clem_opc_push_reg_816 (m : Machine) (v : Nat) (is8 : Bool) : Machine :=
  let m := _clem_cycle m 1
  if is8 then
    _cpu_sp_dec (clem_write m (v % 256) m.regs.S 0)
  else
    let m := clem_write m (v / 256 % 256) m.regs.S 0
    let t := (65535 + m.regs.S) % 65536
    let t := if m.pins.emulation then CLEM_UTIL_set16_lo m.regs.S t else t
    _cpu_sp_dec2 (clem_write m (v % 256) t 0)

/-- Modelled from the spec: _clem_opc_pull_reg_816 (clem_code.h is not
under src).  Pulls a register at the active width; an 8-bit pull replaces
only the low byte (spec 3: the high byte is preserved across 8-bit
operations).  Returns the new register value. -/
def _clem_opc_pull_reg_816 (m : Machine) (reg : Nat) (is8 : Bool) : Nat × Machine :=
  let m := _clem_cycle m 2
  let t1 := (m.regs.S + 1) % 65536
  let t1 := if m.pins.emulation then CLEM_UTIL_set16_lo m.regs.S t1 else t1
  let r1 := clem_read m t1 0
  if is8 then
    (CLEM_UTIL_set16_lo reg r1.1, _cpu_sp_inc r1.2)
  else
    let t2 := (t1 + 1) % 65536
    let t2 := if m.pins.emulation then CLEM_UTIL_set16_lo m.regs.S t2 else t2
    let r2 := clem_read r1.2 t2 0
    (r2.1 % 256 * 256 + r1.1 % 256, _cpu_sp_inc2 r2.2)

/-- Modelled from the spec: _clem_opc_pull_reg_8 (clem_code.h is not under
src).  Pulls one byte from the stack. -/
def _clem_opc_pull_reg_8 (m : Machine) : Nat × Machine :=
  let m := _clem_cycle m 2
  let t1 := (m.regs.S + 1) % 65536
  let t1 := if m.pins.emulation then CLEM_UTIL_set16_lo m.regs.S t1 else t1
  let r1 := clem_read m t1 0
  (r1.1, _cpu_sp_inc r1.2)

/-- Modelled from the spec: _clem_opc_push_status (clem_code.h is not
under src).  Pushes the status byte. -/
def _clem_opc_push_status (m : Machine) (isBrk : Bool) : Machine :=
  _cpu_sp_dec (clem_write m (pushedStatusByte m.regs.P m.pins.emulation isBrk) m.regs.S 0)

/-- Final assignment of the working program counter into the register
file, as done by the epilogue of cpu_execute. -/
def endInstr (m : Machine) (pc : Nat) : Machine :=
  { m with regs := { m.regs with PC := pc % 65536 } }

/-- Operations of cpu_execute that are embedded here: every case of the
source switch that writes X, Y, S, P or the emulation pin at register
level — including the eight non-immediate LDX and LDY forms, which load
X or Y through _cpu_ldxy — plus the control operations the claims
mention.  The remaining opcodes (the A-only ALU, load/store, branch and
jump family) do not touch those registers in the source; they update
only A, D, PBR, PC, memory, cycle counts and the N/Z/C/V flags. -/
inductive Op where
  | XCE | REP | SEP | PLP | RTI | BRK | COP
  | JSR | RTS | JSL | RTL
  | PHA | PHB | PHD | PHK | PHP | PHX | PHY
  | PLA | PLB | PLD | PLX | PLY
  | PEA | PER
  | MVN | MVP
  | LDX_IMM | LDY_IMM
  | LDX_ABS | LDX_DP | LDX_ABS_IDY | LDX_DP_IDY
  | LDY_ABS | LDY_DP | LDY_ABS_IDX | LDY_DP_IDX
  | INX | INY | DEX | DEY
  | TAX | TAY | TCD | TDC | TCS | TSC | TSX | TXA | TXS | TXY | TYA | TYX
  | XBA
  | SEC | SED | SEI | CLC | CLD | CLI | CLV
  | NOP | WAI | STP
deriving DecidableEq

/-- One case body of the cpu_execute switch, translated from the source.
The argument pc is the working program counter tmp_pc, already advanced
past the opcode byte by the fetch; every case ends by storing the working
program counter back into the register file as the source epilogue does. -/
def execOp (op : Op) (m : Machine) (pc : Nat) : Machine :=
  let m_status := m.regs.P.memAcc
  let x_status := m.regs.P.index
  match op with
  | .XCE =>
      let tmp := m.pins.emulation
      let m := { m with pins := { m.pins with emulation := m.regs.P.carry } }
      let m :=
        if tmp ≠ m.pins.emulation then
          let m := { m with regs := { m.regs with
              P := { m.regs.P with index := true, memAcc := true } } }
          let m :=
            if tmp then m
            else { m with regs := { m.regs with S := CLEM_UTIL_set16_lo 256 m.regs.S } }
          _cpu_p_flags_apply_m_x m
        else m
      let m := { m with regs := { m.regs with P := { m.regs.P with carry := tmp } } }
      endInstr (_clem_cycle m 1) pc
  | .REP =>
      let r := _clem_read_pba m pc
      let d := r.1
      let m := r.2.2
      let p := m.regs.P
      let p : PReg :=
        ⟨p.carry && !(d.testBit 0), p.zero && !(d.testBit 1),
         p.irqDisable && !(d.testBit 2), p.decimal && !(d.testBit 3),
         p.index && !(d.testBit 4), p.memAcc && !(d.testBit 5),
         p.overflow && !(d.testBit 6), p.negative && !(d.testBit 7)⟩
      let p := if m.pins.emulation then { p with memAcc := true, index := true } else p
      let m := _cpu_p_flags_apply_m_x { m with regs := { m.regs with P := p } }
      endInstr (_clem_cycle m 1) r.2.1
  | .SEP =>
      let r := _clem_read_pba m pc
      let d := if m.pins.emulation then r.1 ||| 48 else r.1
      let m := r.2.2
      let p := m.regs.P
      let p : PReg :=
        ⟨p.carry || d.testBit 0, p.zero || d.testBit 1,
         p.irqDisable || d.testBit 2, p.decimal || d.testBit 3,
         p.index || d.testBit 4, p.memAcc || d.testBit 5,
         p.overflow || d.testBit 6, p.negative || d.testBit 7⟩
      let m := _cpu_p_flags_apply_m_x { m with regs := { m.regs with P := p } }
      endInstr (_clem_cycle m 1) r.2.1
  | .PLP =>
      let m := _clem_cycle m 2
      endInstr (_clem_opc_pull_status m) pc
  | .RTI =>
      let m := _clem_cycle m 2
      let r := _clem_irq_brk_return m
      endInstr r.2 r.1
  | .BRK =>
      let r := _clem_read_pba m pc
      let m := r.2.2
      let q :=
        if m.pins.emulation then
          _clem_irq_brk_setup m r.2.1 CLEM_6502_IRQBRK_VECTOR_LO_ADDR
            CLEM_6502_IRQBRK_VECTOR_HI_ADDR true
        else
          _clem_irq_brk_setup m r.2.1 CLEM_65816_BRK_VECTOR_LO_ADDR
            CLEM_65816_BRK_VECTOR_HI_ADDR true
      endInstr q.2 q.1
  | .COP =>
      let r := _clem_read_pba m pc
      let m := r.2.2
      let q :=
        if m.pins.emulation then
          -- the source passes the COP low vector address for both bytes here
          _clem_irq_brk_setup m r.2.1 CLEM_6502_COP_VECTOR_LO_ADDR
            CLEM_6502_COP_VECTOR_LO_ADDR true
        else
          _clem_irq_brk_setup m r.2.1 CLEM_65816_COP_VECTOR_LO_ADDR
            CLEM_65816_COP_VECTOR_HI_ADDR true
      endInstr q.2 q.1
  | .JSR =>
      let r := _clem_read_pba_16 m pc
      let m := r.2.2
      let pc := (65535 + r.2.1) % 65536
      let m := _clem_cycle m 1
      let m := _clem_opc_push_pc16 m pc
      endInstr m r.1
  | .RTS =>
      let m := _clem_cycle m 2
      let t1 := (m.regs.S + 1) % 65536
      let t1 := if m.pins.emulation then CLEM_UTIL_set16_lo m.regs.S t1 else t1
      let r1 := clem_read m t1 0
      let t2 := (t1 + 1) % 65536
      let t2 := if m.pins.emulation then CLEM_UTIL_set16_lo m.regs.S t2 else t2
      let r2 := clem_read r1.2 t2 0
      let m := _clem_cycle r2.2 1
      let m := _cpu_sp_inc2 m
      endInstr m ((r2.1 % 256 * 256 + r1.1 % 256 + 1) % 65536)
  | .JSL =>
      let r := _clem_read_pba_16 m pc
      let m := r.2.2
      let m := clem_write m m.regs.PBR m.regs.S 0
      let m := _clem_cycle m 1
      let r2 := _clem_read_pba m r.2.1
      let m := r2.2.2
      let pc := (65535 + r2.2.1) % 65536
      let m := clem_write m (pc / 256 % 256) ((65535 + m.regs.S) % 65536) 0
      let m := clem_write m (pc % 256) ((65534 + m.regs.S) % 65536) 0
      let m := _cpu_sp_dec3 m
      let m := { m with regs := { m.regs with PBR := r2.1 % 256 } }
      endInstr m r.1
  | .RTL =>
      let m := _clem_cycle m 2
      let r1 := clem_read m ((m.regs.S + 1) % 65536) 0
      let r2 := clem_read r1.2 ((m.regs.S + 2) % 65536) 0
      let r3 := clem_read r2.2 ((m.regs.S + 3) % 65536) 0
      let m := _cpu_sp_inc3 r3.2
      let m := { m with regs := { m.regs with PBR := r3.1 % 256 } }
      endInstr m ((r2.1 % 256 * 256 + r1.1 % 256 + 1) % 65536)
  | .PHA =>
      endInstr (_clem_opc_push_reg_816 m m.regs.A m_status) pc
  | .PHB =>
      let m := _clem_cycle m 1
      let m := _cpu_sp_dec (clem_write m (m.regs.DBR % 256) m.regs.S 0)
      endInstr m pc
  | .PHD =>
      let m := _clem_cycle m 1
      let m := clem_write m (m.regs.D / 256 % 256) m.regs.S 0
      let m := clem_write m (m.regs.D % 256) ((65535 + m.regs.S) % 65536) 0
      endInstr (_cpu_sp_dec2 m) pc
  | .PHK =>
      let m := _clem_cycle m 1
      let m := _cpu_sp_dec (clem_write m (m.regs.PBR % 256) m.regs.S 0)
      endInstr m pc
  | .PHP =>
      let m := _clem_cycle m 1
      endInstr (_clem_opc_push_status m false) pc
  | .PHX =>
      endInstr (_clem_opc_push_reg_816 m m.regs.X x_status) pc
  | .PHY =>
      endInstr (_clem_opc_push_reg_816 m m.regs.Y x_status) pc
  | .PLA =>
      let r := _clem_opc_pull_reg_816 m m.regs.A m_status
      let m := { r.2 with regs := { r.2.regs with A := r.1 } }
      endInstr (_cpu_p_flags_n_z_data_16 m m.regs.A) pc
  | .PLB =>
      let r := _clem_opc_pull_reg_8 m
      let m := { r.2 with regs := { r.2.regs with DBR := r.1 % 256 } }
      endInstr (_cpu_p_flags_n_z_data m m.regs.DBR) pc
  | .PLD =>
      let m := _clem_cycle m 2
      let r := _clem_read_16 m ((m.regs.S + 1) % 65536) 0
      let m := { r.2 with regs := { r.2.regs with D := r.1 } }
      let m := _cpu_sp_inc2 m
      endInstr (_cpu_p_flags_n_z_data_16 m m.regs.D) pc
  | .PLX =>
      let r := _clem_opc_pull_reg_816 m m.regs.X x_status
      let m := { r.2 with regs := { r.2.regs with X := r.1 } }
      endInstr (_cpu_p_flags_n_z_data_16 m m.regs.X) pc
  | .PLY =>
      let r := _clem_opc_pull_reg_816 m m.regs.Y x_status
      let m := { r.2 with regs := { r.2.regs with Y := r.1 } }
      endInstr (_cpu_p_flags_n_z_data_16 m m.regs.Y) pc
  | .PEA =>
      let r := _clem_read_pba_16 m pc
      let m := _cpu_sp_dec2 r.2.2
      let m := _clem_write_16 m r.1 ((m.regs.S + 1) % 65536) 0
      endInstr m r.2.1
  | .PER =>
      let r := _clem_read_pba_16 m pc
      let m := _clem_cycle r.2.2 1
      let m := _cpu_sp_dec2 m
      let m := _clem_write_16 m ((r.2.1 + r.1) % 65536) ((m.regs.S + 1) % 65536) 0
      endInstr m r.2.1
  | .MVN =>
      let r1 := _clem_read_pba m pc
      let r2 := _clem_read_pba r1.2.2 r1.2.1
      let m := r2.2.2
      let rd := clem_read m m.regs.X r2.1
      let m := clem_write rd.2 rd.1 m.regs.Y r1.1
      let m :=
        if x_status then
          { m with regs := { m.regs with
              X := CLEM_UTIL_set16_lo m.regs.X (m.regs.X + 1),
              Y := CLEM_UTIL_set16_lo m.regs.Y (m.regs.Y + 1) } }
        else
          { m with regs := { m.regs with
              X := (m.regs.X + 1) % 65536, Y := (m.regs.Y + 1) % 65536 } }
      let m := _clem_cycle m 2
      let m := { m with regs := { m.regs with A := (65535 + m.regs.A) % 65536 } }
      let pc := if m.regs.A ≠ 65535 then m.regs.PC else r2.2.1
      let m := { m with regs := { m.regs with DBR := r1.1 % 256 } }
      endInstr m pc
  | .MVP =>
      let r1 := _clem_read_pba m pc
      let r2 := _clem_read_pba r1.2.2 r1.2.1
      let m := r2.2.2
      let rd := clem_read m m.regs.X r2.1
      let m := clem_write rd.2 rd.1 m.regs.Y r1.1
      let m :=
        if x_status then
          { m with regs := { m.regs with
              X := CLEM_UTIL_set16_lo m.regs.X (65535 + m.regs.X),
              Y := CLEM_UTIL_set16_lo m.regs.Y (65535 + m.regs.Y) } }
        else
          { m with regs := { m.regs with
              X := (65535 + m.regs.X) % 65536, Y := (65535 + m.regs.Y) % 65536 } }
      let m := _clem_cycle m 2
      let m := { m with regs := { m.regs with A := (65535 + m.regs.A) % 65536 } }
      let pc := if m.regs.A ≠ 65535 then m.regs.PC else r2.2.1
      let m := { m with regs := { m.regs with DBR := r1.1 % 256 } }
      endInstr m pc
  | .LDX_IMM =>
      let r := _clem_read_pba_816 m pc x_status
      let m := r.2.2
      let m :=
        if x_status then
          _cpu_p_flags_n_z_data
            { m with regs := { m.regs with X := CLEM_UTIL_set16_lo m.regs.X r.1 } } r.1
        else
          _cpu_p_flags_n_z_data_16
            { m with regs := { m.regs with X := r.1 % 65536 } } r.1
      endInstr m r.2.1
  | .LDY_IMM =>
      let r := _clem_read_pba_816 m pc x_status
      let m := r.2.2
      let m :=
        if x_status then
          _cpu_p_flags_n_z_data
            { m with regs := { m.regs with Y := CLEM_UTIL_set16_lo m.regs.Y r.1 } } r.1
        else
          _cpu_p_flags_n_z_data_16
            { m with regs := { m.regs with Y := r.1 % 65536 } } r.1
      endInstr m r.2.1
  | .LDX_ABS =>
      let r := _clem_read_pba_mode_abs m pc
      let d := _clem_read_data_816 r.2.2 r.1 r.2.2.regs.DBR x_status
      endInstr (_cpu_ldxy d.2 d.1 true x_status) r.2.1
  | .LDX_DP =>
      let r := _clem_read_pba_mode_dp m pc 0 x_status
      let d := _clem_read_data_816 r.2.2.2 r.1 0 x_status
      endInstr (_cpu_ldxy d.2 d.1 true x_status) r.2.2.1
  | .LDX_ABS_IDY =>
      let r := _clem_read_pba_mode_abs m pc
      let d := _clem_read_data_indexed_816 r.2.2 r.1 r.2.2.regs.Y r.2.2.regs.DBR
                 x_status x_status
      endInstr (_cpu_ldxy d.2 d.1 true x_status) r.2.1
  | .LDX_DP_IDY =>
      let r := _clem_read_pba_mode_dp m pc m.regs.Y x_status
      let d := _clem_read_data_816 r.2.2.2 r.1 0 x_status
      endInstr (_cpu_ldxy d.2 d.1 true x_status) r.2.2.1
  | .LDY_ABS =>
      let r := _clem_read_pba_mode_abs m pc
      let d := _clem_read_data_816 r.2.2 r.1 r.2.2.regs.DBR x_status
      endInstr (_cpu_ldxy d.2 d.1 false x_status) r.2.1
  | .LDY_DP =>
      let r := _clem_read_pba_mode_dp m pc 0 x_status
      let d := _clem_read_data_816 r.2.2.2 r.1 0 x_status
      endInstr (_cpu_ldxy d.2 d.1 false x_status) r.2.2.1
  | .LDY_ABS_IDX =>
      let r := _clem_read_pba_mode_abs m pc
      let d := _clem_read_data_indexed_816 r.2.2 r.1 r.2.2.regs.X r.2.2.regs.DBR
                 x_status x_status
      endInstr (_cpu_ldxy d.2 d.1 false x_status) r.2.1
  | .LDY_DP_IDX =>
      let r := _clem_read_pba_mode_dp m pc m.regs.X x_status
      let d := _clem_read_data_816 r.2.2.2 r.1 0 x_status
      endInstr (_cpu_ldxy d.2 d.1 false x_status) r.2.2.1
  | .INX =>
      let v := (m.regs.X + 1) % 65536
      let m :=
        if x_status then
          _cpu_p_flags_n_z_data
            { m with regs := { m.regs with X := CLEM_UTIL_set16_lo m.regs.X v } } v
        else
          _cpu_p_flags_n_z_data_16 { m with regs := { m.regs with X := v } } v
      endInstr (_clem_cycle m 1) pc
  | .INY =>
      let v := (m.regs.Y + 1) % 65536
      let m :=
        if x_status then
          _cpu_p_flags_n_z_data
            { m with regs := { m.regs with Y := CLEM_UTIL_set16_lo m.regs.Y v } } v
        else
          _cpu_p_flags_n_z_data_16 { m with regs := { m.regs with Y := v } } v
      endInstr (_clem_cycle m 1) pc
  | .DEX =>
      let v := (65535 + m.regs.X) % 65536
      let m :=
        if x_status then
          _cpu_p_flags_n_z_data
            { m with regs := { m.regs with X := CLEM_UTIL_set16_lo m.regs.X v } } v
        else
          _cpu_p_flags_n_z_data_16 { m with regs := { m.regs with X := v } } v
      endInstr (_clem_cycle m 1) pc
  | .DEY =>
      let v := (65535 + m.regs.Y) % 65536
      let m :=
        if x_status then
          _cpu_p_flags_n_z_data
            { m with regs := { m.regs with Y := CLEM_UTIL_set16_lo m.regs.Y v } } v
        else
          _cpu_p_flags_n_z_data_16 { m with regs := { m.regs with Y := v } } v
      endInstr (_clem_cycle m 1) pc
  | .TAX =>
      let m :=
        if x_status then
          let m := { m with regs := { m.regs with X := CLEM_UTIL_set16_lo m.regs.X m.regs.A } }
          _cpu_p_flags_n_z_data m (m.regs.X % 256)
        else
          let m := { m with regs := { m.regs with X := m.regs.A % 65536 } }
          _cpu_p_flags_n_z_data_16 m m.regs.X
      endInstr (_clem_cycle m 1) pc
  | .TAY =>
      let m :=
        if x_status then
          let m := { m with regs := { m.regs with Y := CLEM_UTIL_set16_lo m.regs.Y m.regs.A } }
          _cpu_p_flags_n_z_data m (m.regs.Y % 256)
        else
          let m := { m with regs := { m.regs with Y := m.regs.A % 65536 } }
          _cpu_p_flags_n_z_data_16 m m.regs.Y
      endInstr (_clem_cycle m 1) pc
  | .TCD =>
      let m := { m with regs := { m.regs with D := m.regs.A % 65536 } }
      let m := _cpu_p_flags_n_z_data_16 m m.regs.D
      endInstr (_clem_cycle m 1) pc
  | .TDC =>
      let m := { m with regs := { m.regs with A := m.regs.D % 65536 } }
      let m := _cpu_p_flags_n_z_data_16 m m.regs.A
      endInstr (_clem_cycle m 1) pc
  | .TCS =>
      let m :=
        if m.pins.emulation then
          { m with regs := { m.regs with S := CLEM_UTIL_set16_lo m.regs.S m.regs.A } }
        else
          { m with regs := { m.regs with S := m.regs.A % 65536 } }
      endInstr (_clem_cycle m 1) pc
  | .TSC =>
      let m := { m with regs := { m.regs with A := m.regs.S % 65536 } }
      let m := _cpu_p_flags_n_z_data_16 m m.regs.A
      endInstr (_clem_cycle m 1) pc
  | .TSX =>
      let m :=
        if !m.pins.emulation && !x_status then
          let m := { m with regs := { m.regs with X := m.regs.S % 65536 } }
          _cpu_p_flags_n_z_data_16 m m.regs.X
        else if x_status then
          let m := { m with regs := { m.regs with X := CLEM_UTIL_set16_lo m.regs.X m.regs.S } }
          _cpu_p_flags_n_z_data m (m.regs.X % 256)
        else m
      endInstr (_clem_cycle m 1) pc
  | .TXA =>
      let m :=
        if m_status then
          let m := { m with regs := { m.regs with A := CLEM_UTIL_set16_lo m.regs.A m.regs.X } }
          _cpu_p_flags_n_z_data m (m.regs.A % 256)
        else
          let m := { m with regs := { m.regs with
              A := if x_status then m.regs.X % 256 else m.regs.X % 65536 } }
          _cpu_p_flags_n_z_data_16 m m.regs.A
      endInstr (_clem_cycle m 1) pc
  | .TXS =>
      let m :=
        if m.pins.emulation then
          { m with regs := { m.regs with S := CLEM_UTIL_set16_lo m.regs.S m.regs.X } }
        else if x_status then
          { m with regs := { m.regs with S := m.regs.X % 256 } }
        else
          { m with regs := { m.regs with S := m.regs.X % 65536 } }
      endInstr (_clem_cycle m 1) pc
  | .TXY =>
      let m :=
        if x_status then
          let m := { m with regs := { m.regs with Y := CLEM_UTIL_set16_lo m.regs.Y m.regs.X } }
          _cpu_p_flags_n_z_data m (m.regs.Y % 256)
        else
          let m := { m with regs := { m.regs with Y := m.regs.X % 65536 } }
          _cpu_p_flags_n_z_data_16 m m.regs.Y
      endInstr (_clem_cycle m 1) pc
  | .TYA =>
      let m :=
        if m_status then
          let m := { m with regs := { m.regs with A := CLEM_UTIL_set16_lo m.regs.A m.regs.Y } }
          _cpu_p_flags_n_z_data m (m.regs.A % 256)
        else
          let m := { m with regs := { m.regs with
              A := if x_status then m.regs.Y % 256 else m.regs.Y % 65536 } }
          _cpu_p_flags_n_z_data_16 m m.regs.A
      endInstr (_clem_cycle m 1) pc
  | .TYX =>
      let m :=
        if x_status then
          let m := { m with regs := { m.regs with X := CLEM_UTIL_set16_lo m.regs.X m.regs.Y } }
          _cpu_p_flags_n_z_data m (m.regs.X % 256)
        else
          let m := { m with regs := { m.regs with X := m.regs.Y % 65536 } }
          _cpu_p_flags_n_z_data_16 m m.regs.X
      endInstr (_clem_cycle m 1) pc
  | .XBA =>
      let t := m.regs.A
      let m := { m with regs := { m.regs with A := t % 256 * 256 + t / 256 % 256 } }
      let m := _cpu_p_flags_n_z_data m (m.regs.A % 256)
      endInstr (_clem_cycle m 2) pc
  | .SEC =>
      let m := { m with regs := { m.regs with P := { m.regs.P with carry := true } } }
      endInstr (_clem_cycle m 1) pc
  | .SED =>
      let m := { m with regs := { m.regs with P := { m.regs.P with decimal := true } } }
      endInstr (_clem_cycle m 1) pc
  | .SEI =>
      let m := { m with regs := { m.regs with P := { m.regs.P with irqDisable := true } } }
      endInstr (_clem_cycle m 1) pc
  | .CLC =>
      let m := { m with regs := { m.regs with P := { m.regs.P with carry := false } } }
      endInstr (_clem_cycle m 1) pc
  | .CLD =>
      let m := { m with regs := { m.regs with P := { m.regs.P with decimal := false } } }
      endInstr (_clem_cycle m 1) pc
  | .CLI =>
      let m := { m with regs := { m.regs with P := { m.regs.P with irqDisable := false } } }
      endInstr (_clem_cycle m 1) pc
  | .CLV =>
      let m := { m with regs := { m.regs with P := { m.regs.P with overflow := false } } }
      endInstr (_clem_cycle m 1) pc
  | .NOP =>
      endInstr (_clem_cycle m 1) pc
  | .WAI =>
      let m := _clem_cycle m 2
      endInstr { m with pins := { m.pins with readyOut := false } } pc
  | .STP =>
      let m := _clem_cycle m 2
      endInstr { m with enabled := false } pc

/-- Modelled from the spec: opcode byte values (the CLEM_OPC_* constants
live in a header that is not under src; the values are the WDC 65C816
encodings of the instruction set the spec enumerates).  Only the
operations embedded by Op are decoded here; the source switch itself has
a case for every one of the 256 opcode values, and the cases not
embedded write none of X, Y, S, the width bits of P, or the pins. -/
def decodeOp (ir : Nat) : Option Op :=
  match ir with
  | 0x00 => some .BRK
  | 0x02 => some .COP
  | 0x08 => some .PHP
  | 0x0B => some .PHD
  | 0x18 => some .CLC
  | 0x1B => some .TCS
  | 0x20 => some .JSR
  | 0x22 => some .JSL
  | 0x28 => some .PLP
  | 0x2B => some .PLD
  | 0x38 => some .SEC
  | 0x3B => some .TSC
  | 0x40 => some .RTI
  | 0x44 => some .MVP
  | 0x48 => some .PHA
  | 0x4B => some .PHK
  | 0x54 => some .MVN
  | 0x58 => some .CLI
  | 0x5A => some .PHY
  | 0x5B => some .TCD
  | 0x60 => some .RTS
  | 0x62 => some .PER
  | 0x68 => some .PLA
  | 0x6B => some .RTL
  | 0x78 => some .SEI
  | 0x7A => some .PLY
  | 0x7B => some .TDC
  | 0x88 => some .DEY
  | 0x8A => some .TXA
  | 0x8B => some .PHB
  | 0x98 => some .TYA
  | 0x9A => some .TXS
  | 0x9B => some .TXY
  | 0xA0 => some .LDY_IMM
  | 0xA2 => some .LDX_IMM
  | 0xA4 => some .LDY_DP
  | 0xA6 => some .LDX_DP
  | 0xA8 => some .TAY
  | 0xAA => some .TAX
  | 0xAB => some .PLB
  | 0xAC => some .LDY_ABS
  | 0xAE => some .LDX_ABS
  | 0xB4 => some .LDY_DP_IDX
  | 0xB6 => some .LDX_DP_IDY
  | 0xB8 => some .CLV
  | 0xBA => some .TSX
  | 0xBB => some .TYX
  | 0xBC => some .LDY_ABS_IDX
  | 0xBE => some .LDX_ABS_IDY
  | 0xC2 => some .REP
  | 0xC8 => some .INY
  | 0xCA => some .DEX
  | 0xCB => some .WAI
  | 0xD8 => some .CLD
  | 0xDA => some .PHX
  | 0xDB => some .STP
  | 0xE2 => some .SEP
  | 0xE8 => some .INX
  | 0xEA => some .NOP
  | 0xEB => some .XBA
  | 0xF4 => some .PEA
  | 0xF8 => some .SED
  | 0xFA => some .PLX
  | 0xFB => some .XCE
  | _ => none

/-- The shared epilogue standing for the source cases that are not
embedded by Op: the source switch handles all 256 opcode values, and
every case outside Op leaves X, Y, S, the M and X width bits of P, and
the pins unchanged — which is all the width-safety invariant reads;
their effects on A, D, PBR, memory, the N/Z/C/V flags and cycles are not
tracked here.  (The switch also has a default branch that only logs and
asserts, but with all 256 values handled it is unreachable.) -/
def cpu_execute_default (m : Machine) (pc : Nat) : Machine :=
  endInstr m pc

/-- cpu_execute: fetches the opcode at PBR:PC (recording it in IR),
advances the working program counter past the opcode byte, and dispatches
on the opcode.  Opcode bytes outside the embedded Op set (every one of
them handled by the source switch) fall to the shared epilogue of this
embedding. -/
def cpu_execute (m : Machine) : Machine :=
  let r := clem_read m m.regs.PC m.regs.PBR
  let m := { r.2 with regs := { r.2.regs with IR := r.1 } }
  let pc := (m.regs.PC + 1) % 65536
  match decodeOp r.1 with
  | some op => execOp op m pc
  | none => cpu_execute_default m pc

/-- clemens_emulate_cpu, the step entry point, translated from the
source: the reset pin branch (with the resb down-counter), the disabled
check, the reset vector branch, the IRQ and NMI entry branch, and the
normal execute dispatch. -/
def clemens_emulate_cpu (m : Machine) : Machine :=
  if m.pins.resbIn = false then
    let m :=
      if m.stateType ≠ CPUStateType.Reset then
        let m := { m with
          stateType := CPUStateType.Reset,
          regs := { m.regs with
            D := 0, DBR := 0, PBR := 0,
            S := m.regs.S % 256 + 256,
            X := m.regs.X % 256, Y := m.regs.Y % 256,
            P := { m.regs.P with
              memAcc := true, index := true, irqDisable := true,
              decimal := false, carry := false } },
          pins := { m.pins with emulation := true, readyOut := true },
          enabled := true }
        _clem_cycle m 1
      else m
    let m := _clem_cycle m 1
    if m.resbCounter > 0 then
      let c := m.resbCounter - 1
      if c ≤ 0 then
        { m with resbCounter := c, pins := { m.pins with resbIn := true } }
      else { m with resbCounter := c }
    else m
  else if m.enabled = false then m
  else
    match m.stateType with
    | CPUStateType.Reset =>
        let r1 := clem_read m m.regs.S 0
        let m := r1.2
        let t := (65535 + m.regs.S) % 65536
        let t := if m.pins.emulation then CLEM_UTIL_set16_lo m.regs.S t else t
        let r2 := clem_read m t 0
        let m := _cpu_sp_dec2 r2.2
        let r3 := clem_read m m.regs.S 0
        let m := _cpu_sp_dec r3.2
        let v := _clem_read_interrupt_vector m CLEM_6502_RESET_VECTOR_LO_ADDR
                   CLEM_6502_RESET_VECTOR_HI_ADDR
        { v.2 with
          regs := { v.2.regs with PC := v.1 },
          stateType := CPUStateType.Execute }
    | CPUStateType.IRQ =>
        let vlo := if m.pins.emulation then CLEM_6502_IRQBRK_VECTOR_LO_ADDR
                   else CLEM_65816_IRQB_VECTOR_LO_ADDR
        let vhi := if m.pins.emulation then CLEM_6502_IRQBRK_VECTOR_HI_ADDR
                   else CLEM_65816_IRQB_VECTOR_HI_ADDR
        let m := _clem_cycle m 2
        let q := _clem_irq_brk_setup m m.regs.PC vlo vhi false
        { q.2 with
          regs := { q.2.regs with PC := q.1 },
          stateType := CPUStateType.Execute }
    | CPUStateType.NMI =>
        let vlo := if m.pins.emulation then CLEM_6502_NMI_VECTOR_LO_ADDR
                   else CLEM_65816_NMI_VECTOR_LO_ADDR
        -- the source passes the native NMI low vector constant as vhi here
        let vhi := if m.pins.emulation then CLEM_6502_NMI_VECTOR_HI_ADDR
                   else CLEM_65816_NMI_VECTOR_LO_ADDR
        let m := _clem_cycle m 2
        let q := _clem_irq_brk_setup m m.regs.PC vlo vhi false
        { q.2 with
          regs := { q.2.regs with PC := q.1 },
          stateType := CPUStateType.Execute }
    | CPUStateType.Execute =>
        cpu_execute m

/-- clemens_simple_init, translated from the source.  Host memory
pointers are modelled as optional values (present or NULL); the bank
pointer table assignments themselves are raw pointers and are represented
by the fpiBankUsed flags, while the memset of the first
fpiRAMBankCount fast-RAM banks is applied to the flat memory.  That
memset writes through fpiRAM + i * 65536 for every fast-RAM bank, so
with a NULL fpiRAM and a nonzero (clamped) bank count the call
dereferences a null pointer and never returns: that execution is none.
The static opcode description tables are not part of the machine
state. -/
def clemens_simple_init (m : Machine) (speed_factor clocks_step : Nat)
    (fpiRAM : Option Unit) (fpiRAMBankCount : Nat) : Option Machine :=
  let m := { m with
    pins := { m.pins with resbIn := true, irqbIn := true },
    tspec := ⟨clocks_step, clocks_step, speed_factor, 0⟩ }
  let count := if fpiRAMBankCount > 256 then 256 else fpiRAMBankCount
  if fpiRAM = none ∧ 0 < count then none
  else
    some { m with
      fpiBankUsed := fun i =>
        if i < count then true else if i < 255 then false else m.fpiBankUsed i,
      mem := fun a => if a / 65536 < count then 0 else m.mem a }

/-- clemens_init, translated from the source: runs clemens_simple_init
first (whose per-bank memset faults on a NULL fast-RAM pointer with a
nonzero bank count, propagated as none), then validates the ROM pointer
(error -1) and the fast-RAM bank count and RAM pointers (error -2); on
success it marks the ROM banks FC..FF used and clears the two mega2
(slow RAM) banks, returning 0. -/
def clemens_init (m : Machine) (speed_factor clocks_step : Nat)
    (rom e0bank e1bank fpiRAM : Option Unit) (fpiRAMBankCount : Nat) :
    Option (Int × Machine) :=
  match clemens_simple_init m speed_factor clocks_step fpiRAM fpiRAMBankCount with
  | none => none
  | some m =>
    if rom = none then some (-1, m)
    else if fpiRAMBankCount < 4 ∨ fpiRAM = none ∨ e0bank = none ∨ e1bank = none then
      some (-2, m)
    else
      some (0, { m with
        fpiBankUsed := fun i => if 0xfc ≤ i ∧ i ≤ 0xff then true else m.fpiBankUsed i,
        mega2e0 := fun _ => 0,
        mega2e1 := fun _ => 0 })

/-- Modelled from the spec: _clem_util_hex_value digit parsing
(clem_util.h is not under src): the value of one hexadecimal digit. -/
def hexDigitVal (c : Char) : Option Nat :=
  if 48 ≤ c.toNat ∧ c.toNat ≤ 57 then some (c.toNat - 48)
  else if 97 ≤ c.toNat ∧ c.toNat ≤ 102 then some (c.toNat - 87)
  else if 65 ≤ c.toNat ∧ c.toNat ≤ 70 then some (c.toNat - 55)
  else none

/-- Folds hexadecimal digits, most significant first, failing on any
character that is not a hexadecimal digit. -/
def hexValueAux : List Char → Nat → Option Nat
  | [], acc => some acc
  | c :: rest, acc =>
    match hexDigitVal c with
    | some d => hexValueAux rest (acc * 16 + d)
    | none => none

/-- Modelled from the spec: _clem_util_hex_value (clem_util.h is not
under src).  Parses the hexadecimal token between positions i and j of
the input. -/
def _clem_util_hex_value (s : List Char) (i j : Nat) : Option Nat :=
  hexValueAux ((s.drop i).take (j - i)) 0

/-- Character at position i, with the C string NUL terminator past the
end of the input. -/
def charAt (s : List Char) (i : Nat) : Char :=
  s.getD i (Char.ofNat 0)

/-- The C isspace predicate for the characters the loader can see. -/
def isSpaceChar (c : Char) : Bool :=
  c = ' ' || c = Char.ofNat 9 || c = Char.ofNat 10 ||
  c = Char.ofNat 11 || c = Char.ofNat 12 || c = Char.ofNat 13

/-- Scanner states of clemens_load_hex (the CLEM_LOAD_HEX_STATE_*
character constants of the source). -/
inductive HexState where
  | Begin
  | Error
  | CR
  | Length
  | Adr16
  | Record
  | Data
  | Chksum
  | Eol
  | Eof
deriving DecidableEq

/-- Mutable locals of the clemens_load_hex loop. -/
structure HexVars where
  state : HexState
  line : Nat
  next : Nat
  byteLength : Nat
  address16 : Nat
  recordtype : Nat
  chksum : Nat
  memory : Nat → Nat

/-- The switch body of one clemens_load_hex loop iteration (all cases
except Error, which returns from the function and is handled by the
caller).  Returns the updated locals; next may have been backtracked by
one position exactly where the source does so. -/
def loadHexSwitch (input : List Char) (mapped : Bool) (v : HexVars) : HexVars :=
  let tok := v.next - v.line
  match v.state with
  | .Begin =>
      if charAt input v.next = ':' then { v with state := .Length }
      else if isSpaceChar (charAt input v.next) then { v with state := .Begin }
      else { v with state := .Error }
  | .CR =>
      if charAt input v.next = Char.ofNat 10 then { v with state := .Begin }
      else { v with state := .Error }
  | .Length =>
      if tok = 2 then
        match _clem_util_hex_value input v.line v.next with
        | none => { v with state := .Error, byteLength := 0 }
        | some l =>
          if mapped then
            { v with state := .Adr16, byteLength := l, chksum := l % 256,
                     next := v.next - 1 }
          else { v with state := .Error, byteLength := l, chksum := l % 256 }
      else v
  | .Adr16 =>
      if tok = 4 then
        match _clem_util_hex_value input v.line v.next with
        | none => { v with state := .Error }
        | some t =>
          { v with state := .Record, address16 := t % 65536,
                   chksum := (v.chksum + t % 65536 / 256 + t % 256) % 256,
                   next := v.next - 1 }
      else v
  | .Record =>
      if tok = 2 then
        match _clem_util_hex_value input v.line v.next with
        | none => { v with state := .Error }
        | some r =>
          let v := { v with recordtype := r % 256, chksum := (v.chksum + r % 256) % 256 }
          if r % 256 = 0 then { v with state := .Data, next := v.next - 1 }
          else if r % 256 = 1 then { v with state := .Chksum, next := v.next - 1 }
          else { v with state := .Error }
      else v
  | .Data =>
      let tmp := tok / 2
      if tok % 2 = 0 ∧ tmp > 0 then
        let tmp := tmp - 1
        let v :=
          match _clem_util_hex_value input (v.line + tmp * 2) v.next with
          | some d =>
            { v with chksum := (v.chksum + d % 256) % 256,
                     memory := fun a =>
                       if a = (v.address16 + tmp) % 65536 then d % 256 else v.memory a }
          | none => { v with state := .Error }
        if tmp + 1 ≥ v.byteLength then { v with state := .Chksum, next := v.next - 1 }
        else v
      else v
  | .Chksum =>
      if tok = 2 then
        let ck := (1 + (255 - v.chksum % 256)) % 256
        let v := { v with chksum := ck }
        match _clem_util_hex_value input v.line v.next with
        | some t =>
          if ck = t % 256 then
            if v.recordtype = 1 then { v with state := .Eof }
            else { v with state := .Eol }
          else { v with state := .Error }
        | none => { v with state := .Error }
      else v
  | .Eol =>
      if charAt input v.next = Char.ofNat 13 then { v with state := .CR }
      else if charAt input v.next = Char.ofNat 10 then { v with state := .Begin }
      else v
  | .Error => v
  | .Eof => v

/-- The clemens_load_hex while loop, with fuel.  Every loop iteration of
the source either consumes one input character or advances the scanner
state while standing still, so the fuel chosen by clemens_load_hex is
never exhausted; the 0-fuel result mirrors the loop falling through to
the final return true. -/
def clemens_load_hex_loop (input : List Char) (mapped : Bool) :
    Nat → HexVars → Bool × (Nat → Nat)
  | 0, v => (true, v.memory)
  | fuel + 1, v =>
    if charAt input v.line = Char.ofNat 0 then (true, v.memory)
    else if v.state = HexState.Eof then (true, v.memory)
    else if v.state = HexState.Error then (false, v.memory)
    else
      let w := loadHexSwitch input mapped v
      let w :=
        if charAt input w.next = Char.ofNat 0 then { w with line := w.next }
        else
          let n := w.next + 1
          { w with next := n, line := if w.state ≠ v.state then n else w.line }
      clemens_load_hex_loop input mapped fuel w

/-- clemens_load_hex, translated from the source for a NUL-terminated
input (hex_end of NULL): parses Intel HEX records into the selected bank
memory.  The bank memory pointer lookup is modelled by the mapped flag
(NULL when the bank is unmapped). -/
def clemens_load_hex (input : List Char) (mapped : Bool) (memory : Nat → Nat) :
    Bool × (Nat → Nat) :=
  clemens_load_hex_loop input mapped (2 * input.length + 16)
    ⟨HexState.Begin, 0, 0, 0, 0, 0xFF, 0, memory⟩

/-- The C memcpy on byte buffers modelled as functions: copies n bytes
from src starting at soff into dst starting at doff. -/
def memcpyFn (dst : Nat → Nat) (doff : Nat) (src : Nat → Nat) (soff n : Nat) :
    Nat → Nat :=
  fun i => if doff ≤ i ∧ i < doff + n then src (soff + (i - doff)) else dst i

/-- clemens_out_bin_data, translated from the source; memory is the
already selected 64 KiB bank (mega2 for banks E0/E1, fast RAM
otherwise), out is the destination buffer.  The unsigned arithmetic of
the source is kept: the final copy length is the 32-bit difference
right0 - left0 computed after right0 has been masked to 16 bits in the
wraparound branch. -/
def clemens_out_bin_data (memory out : Nat → Nat) (out_byte_cnt adr : Nat) :
    Nat → Nat :=
  let cnt := if out_byte_cnt > 0x10000 then 0x10000 else out_byte_cnt
  let left0 := adr % 65536
  let right0 := left0 + cnt
  if right0 > 0x10000 then
    let right1 := right0 - 0x10000
    let r0 := right0 % 65536
    let out1 := memcpyFn out right1 memory 0 right1
    let len := (((r0 : Int) - (left0 : Int)) % (4294967296 : Int)).toNat
    memcpyFn out1 0 memory left0 len
  else
    memcpyFn out 0 memory left0 (right0 - left0)

/-- The width-safety invariant of the claim: X=1 forces zero high bytes
of X and Y; emulation mode forces M=1, X=1 and a stack page of 0x01. -/
def Inv (m : Machine) : Prop :=
  (m.regs.P.index = true → m.regs.X < 256 ∧ m.regs.Y < 256) ∧
  (m.pins.emulation = true →
    m.regs.P.memAcc = true ∧ m.regs.P.index = true ∧ m.regs.S / 256 = 1)

instance (m : Machine) : Decidable (Inv m) := by
  unfold Inv; infer_instance

theorem set16_lo_div (v lo : Nat) : CLEM_UTIL_set16_lo v lo / 256 = v / 256 := by
  unfold CLEM_UTIL_set16_lo; omega

theorem set16_lo_lt (v lo : Nat) (h : v < 256) : CLEM_UTIL_set16_lo v lo < 256 := by
  unfold CLEM_UTIL_set16_lo; omega

@[simp] theorem clem_cycle_regs (m : Machine) (n : Nat) : (_clem_cycle m n).regs = m.regs := rfl

@[simp] theorem clem_cycle_pins (m : Machine) (n : Nat) : (_clem_cycle m n).pins = m.pins := rfl

@[simp] theorem clem_cycle_mem (m : Machine) (n : Nat) : (_clem_cycle m n).mem = m.mem := rfl

@[simp] theorem clem_cycle_enabled (m : Machine) (n : Nat) : (_clem_cycle m n).enabled = m.enabled := rfl

@[simp] theorem clem_cycle_stateType (m : Machine) (n : Nat) : (_clem_cycle m n).stateType = m.stateType := rfl

@[simp] theorem clem_cycle_cycles (m : Machine) (n : Nat) : (_clem_cycle m n).cyclesSpent = m.cyclesSpent + n := rfl

@[simp] theorem clem_read_snd (m : Machine) (adr bank : Nat) : (clem_read m adr bank).2 = _clem_cycle m 1 := rfl

@[simp] theorem clem_read_fst (m : Machine) (adr bank : Nat) : (clem_read m adr bank).1 = m.mem (memAddr bank adr) % 256 := rfl

@[simp] theorem clem_write_regs (m : Machine) (v adr bank : Nat) : (clem_write m v adr bank).regs = m.regs := rfl

@[simp] theorem clem_write_pins (m : Machine) (v adr bank : Nat) : (clem_write m v adr bank).pins = m.pins := rfl

@[simp] theorem clem_write_enabled (m : Machine) (v adr bank : Nat) : (clem_write m v adr bank).enabled = m.enabled := rfl

@[simp] theorem clem_write_stateType (m : Machine) (v adr bank : Nat) : (clem_write m v adr bank).stateType = m.stateType := rfl

@[simp] theorem clem_write_cycles (m : Machine) (v adr bank : Nat) : (clem_write m v adr bank).cyclesSpent = m.cyclesSpent + 1 := rfl

@[simp] theorem sp_dec_pins (m : Machine) : (_cpu_sp_dec m).pins = m.pins := rfl

@[simp] theorem sp_dec_mem (m : Machine) : (_cpu_sp_dec m).mem = m.mem := rfl

@[simp] theorem sp_dec_cycles (m : Machine) : (_cpu_sp_dec m).cyclesSpent = m.cyclesSpent := rfl

@[simp] theorem sp_dec_enabled (m : Machine) : (_cpu_sp_dec m).enabled = m.enabled := rfl

@[simp] theorem sp_dec_stateType (m : Machine) : (_cpu_sp_dec m).stateType = m.stateType := rfl

@[simp] theorem sp_dec_P (m : Machine) : (_cpu_sp_dec m).regs.P = m.regs.P := rfl

@[simp] theorem sp_dec_X (m : Machine) : (_cpu_sp_dec m).regs.X = m.regs.X := rfl

@[simp] theorem sp_dec_Y (m : Machine) : (_cpu_sp_dec m).regs.Y = m.regs.Y := rfl

@[simp] theorem sp_dec_A (m : Machine) : (_cpu_sp_dec m).regs.A = m.regs.A := rfl

@[simp] theorem sp_dec_D (m : Machine) : (_cpu_sp_dec m).regs.D = m.regs.D := rfl

@[simp] theorem sp_dec_PC (m : Machine) : (_cpu_sp_dec m).regs.PC = m.regs.PC := rfl

@[simp] theorem sp_dec_PBR (m : Machine) : (_cpu_sp_dec m).regs.PBR = m.regs.PBR := rfl

@[simp] theorem sp_dec_DBR (m : Machine) : (_cpu_sp_dec m).regs.DBR = m.regs.DBR := rfl

@[simp] theorem sp_inc_pins (m : Machine) : (_cpu_sp_inc m).pins = m.pins := rfl

@[simp] theorem sp_inc_mem (m : Machine) : (_cpu_sp_inc m).mem = m.mem := rfl

@[simp] theorem sp_inc_cycles (m : Machine) : (_cpu_sp_inc m).cyclesSpent = m.cyclesSpent := rfl

@[simp] theorem sp_inc_enabled (m : Machine) : (_cpu_sp_inc m).enabled = m.enabled := rfl

@[simp] theorem sp_inc_stateType (m : Machine) : (_cpu_sp_inc m).stateType = m.stateType := rfl

@[simp] theorem sp_inc_P (m : Machine) : (_cpu_sp_inc m).regs.P = m.regs.P := rfl

@[simp] theorem sp_inc_X (m : Machine) : (_cpu_sp_inc m).regs.X = m.regs.X := rfl

@[simp] theorem sp_inc_Y (m : Machine) : (_cpu_sp_inc m).regs.Y = m.regs.Y := rfl

@[simp] theorem sp_inc_A (m : Machine) : (_cpu_sp_inc m).regs.A = m.regs.A := rfl

@[simp] theorem sp_inc_D (m : Machine) : (_cpu_sp_inc m).regs.D = m.regs.D := rfl

@[simp] theorem sp_inc_PC (m : Machine) : (_cpu_sp_inc m).regs.PC = m.regs.PC := rfl

@[simp] theorem sp_inc_PBR (m : Machine) : (_cpu_sp_inc m).regs.PBR = m.regs.PBR := rfl

@[simp] theorem sp_inc_DBR (m : Machine) : (_cpu_sp_inc m).regs.DBR = m.regs.DBR := rfl

@[simp] theorem sp_inc2_pins (m : Machine) : (_cpu_sp_inc2 m).pins = m.pins := rfl

@[simp] theorem sp_inc3_pins (m : Machine) : (_cpu_sp_inc3 m).pins = m.pins := rfl

@[simp] theorem sp_dec2_pins (m : Machine) : (_cpu_sp_dec2 m).pins = m.pins := rfl

@[simp] theorem sp_dec3_pins (m : Machine) : (_cpu_sp_dec3 m).pins = m.pins := rfl

@[simp] theorem sp_inc2_P (m : Machine) : (_cpu_sp_inc2 m).regs.P = m.regs.P := rfl

@[simp] theorem sp_dec2_P (m : Machine) : (_cpu_sp_dec2 m).regs.P = m.regs.P := rfl

@[simp] theorem sp_inc2_X (m : Machine) : (_cpu_sp_inc2 m).regs.X = m.regs.X := rfl

@[simp] theorem sp_inc2_Y (m : Machine) : (_cpu_sp_inc2 m).regs.Y = m.regs.Y := rfl

@[simp] theorem sp_inc3_X (m : Machine) : (_cpu_sp_inc3 m).regs.X = m.regs.X := rfl

@[simp] theorem sp_inc3_Y (m : Machine) : (_cpu_sp_inc3 m).regs.Y = m.regs.Y := rfl

@[simp] theorem sp_dec2_X (m : Machine) : (_cpu_sp_dec2 m).regs.X = m.regs.X := rfl

@[simp] theorem sp_dec2_Y (m : Machine) : (_cpu_sp_dec2 m).regs.Y = m.regs.Y := rfl

@[simp] theorem sp_dec3_X (m : Machine) : (_cpu_sp_dec3 m).regs.X = m.regs.X := rfl

@[simp] theorem sp_dec3_Y (m : Machine) : (_cpu_sp_dec3 m).regs.Y = m.regs.Y := rfl

@[simp] theorem sp_inc3_P (m : Machine) : (_cpu_sp_inc3 m).regs.P = m.regs.P := rfl

@[simp] theorem sp_dec3_P (m : Machine) : (_cpu_sp_dec3 m).regs.P = m.regs.P := rfl

@[simp] theorem sp_dec_S_div (m : Machine) (he : m.pins.emulation = true) :
    (_cpu_sp_dec m).regs.S / 256 = m.regs.S / 256 := by
  unfold _cpu_sp_dec
  simp [he, set16_lo_div]

@[simp] theorem sp_inc_S_div (m : Machine) (he : m.pins.emulation = true) :
    (_cpu_sp_inc m).regs.S / 256 = m.regs.S / 256 := by
  unfold _cpu_sp_inc
  simp [he, set16_lo_div]

@[simp] theorem sp_dec2_S_div (m : Machine) (he : m.pins.emulation = true) :
    (_cpu_sp_dec2 m).regs.S / 256 = m.regs.S / 256 := by
  unfold _cpu_sp_dec2
  rw [sp_dec_S_div _ (by simpa using he), sp_dec_S_div _ he]

@[simp] theorem sp_dec3_S_div (m : Machine) (he : m.pins.emulation = true) :
    (_cpu_sp_dec3 m).regs.S / 256 = m.regs.S / 256 := by
  unfold _cpu_sp_dec3
  rw [sp_dec_S_div _ (by simpa using he), sp_dec2_S_div _ he]

@[simp] theorem sp_inc2_S_div (m : Machine) (he : m.pins.emulation = true) :
    (_cpu_sp_inc2 m).regs.S / 256 = m.regs.S / 256 := by
  unfold _cpu_sp_inc2
  rw [sp_inc_S_div _ (by simpa using he), sp_inc_S_div _ he]

@[simp] theorem sp_inc3_S_div (m : Machine) (he : m.pins.emulation = true) :
    (_cpu_sp_inc3 m).regs.S / 256 = m.regs.S / 256 := by
  unfold _cpu_sp_inc3
  rw [sp_inc_S_div _ (by simpa using he), sp_inc2_S_div _ he]

theorem Inv_transfer {m0 m1 : Machine} (h : Inv m0)
    (hP : m1.regs.P.index = m0.regs.P.index)
    (hM : m1.regs.P.memAcc = m0.regs.P.memAcc)
    (hX : m1.regs.X = m0.regs.X) (hY : m1.regs.Y = m0.regs.Y)
    (hE : m1.pins.emulation = m0.pins.emulation)
    (hS : m0.pins.emulation = true → m1.regs.S / 256 = m0.regs.S / 256) :
    Inv m1 := by
  obtain ⟨h1, h2⟩ := h
  constructor
  · intro hi
    rw [hX, hY]
    exact h1 (hP ▸ hi)
  · intro he
    rw [hE] at he
    obtain ⟨a, b2, c⟩ := h2 he
    exact ⟨by rw [hM]; exact a, by rw [hP]; exact b2, by rw [hS he]; exact c⟩

theorem Inv_endInstr {m : Machine} (pc : Nat) (h : Inv m) : Inv (endInstr m pc) := h

theorem Inv_cycle {m : Machine} (n : Nat) (h : Inv m) : Inv (_clem_cycle m n) := h

theorem Inv_write {m : Machine} (v adr bank : Nat) (h : Inv m) :
    Inv (clem_write m v adr bank) := h

theorem Inv_read {m : Machine} (adr bank : Nat) (h : Inv m) :
    Inv (clem_read m adr bank).2 := h

theorem Inv_sp_dec {m : Machine} (h : Inv m) : Inv (_cpu_sp_dec m) := by
  obtain ⟨h1, h2⟩ := h
  unfold _cpu_sp_dec
  by_cases he : m.pins.emulation = true
  · refine ⟨h1, fun _ => ?_⟩
    obtain ⟨a, b, c⟩ := h2 he
    exact ⟨a, b, by simp [he, set16_lo_div, c]⟩
  · exact ⟨h1, fun hh => absurd hh he⟩

theorem Inv_sp_inc {m : Machine} (h : Inv m) : Inv (_cpu_sp_inc m) := by
  obtain ⟨h1, h2⟩ := h
  unfold _cpu_sp_inc
  by_cases he : m.pins.emulation = true
  · refine ⟨h1, fun _ => ?_⟩
    obtain ⟨a, b, c⟩ := h2 he
    exact ⟨a, b, by simp [he, set16_lo_div, c]⟩
  · exact ⟨h1, fun hh => absurd hh he⟩

theorem Inv_sp_dec2 {m : Machine} (h : Inv m) : Inv (_cpu_sp_dec2 m) :=
  Inv_sp_dec (Inv_sp_dec h)

theorem Inv_sp_dec3 {m : Machine} (h : Inv m) : Inv (_cpu_sp_dec3 m) :=
  Inv_sp_dec (Inv_sp_dec2 h)

theorem Inv_sp_inc2 {m : Machine} (h : Inv m) : Inv (_cpu_sp_inc2 m) :=
  Inv_sp_inc (Inv_sp_inc h)

theorem Inv_sp_inc3 {m : Machine} (h : Inv m) : Inv (_cpu_sp_inc3 m) :=
  Inv_sp_inc (Inv_sp_inc2 h)

theorem Inv_apply_m_x {m : Machine}
    (h : m.pins.emulation = true →
      m.regs.P.memAcc = true ∧ m.regs.P.index = true ∧ m.regs.S / 256 = 1) :
    Inv (_cpu_p_flags_apply_m_x m) := by
  unfold _cpu_p_flags_apply_m_x
  by_cases hx : m.regs.P.index = true
  · simp only [hx, if_true]
    exact ⟨fun _ => ⟨Nat.mod_lt _ (by omega), Nat.mod_lt _ (by omega)⟩, h⟩
  · simp only [hx, if_false, Bool.false_eq_true]
    exact ⟨fun hc => absurd hc hx, h⟩

theorem Inv_nz {m : Machine} (v : Nat) (h : Inv m) : Inv (_cpu_p_flags_n_z_data m v) := h

theorem Inv_nz16 {m : Machine} (v : Nat) (h : Inv m) :
    Inv (_cpu_p_flags_n_z_data_16 m v) := h

theorem Inv_push_reg_816 {m : Machine} (v : Nat) (is8 : Bool) (h : Inv m) :
    Inv (_clem_opc_push_reg_816 m v is8) := by
  unfold _clem_opc_push_reg_816
  by_cases h8 : is8 = true
  · simp only [h8, if_true]
    exact Inv_sp_dec (Inv_write _ _ _ (Inv_cycle _ h))
  · simp only [h8, if_false]
    split
    · exact Inv_sp_dec (Inv_write _ _ _ (Inv_cycle _ h))
    · exact Inv_sp_dec2 (Inv_write _ _ _ (Inv_write _ _ _ (Inv_cycle _ h)))

theorem Inv_push_pc16 {m : Machine} (pc : Nat) (h : Inv m) :
    Inv (_clem_opc_push_pc16 m pc) := by
  unfold _clem_opc_push_pc16
  simp only [clem_write_regs, clem_write_pins]
  by_cases he : m.pins.emulation = true <;> simp only [he, if_true, if_false] <;>
    exact Inv_sp_dec2 (Inv_write _ _ _ (Inv_write _ _ _ h))

theorem Inv_push_status {m : Machine} (b : Bool) (h : Inv m) :
    Inv (_clem_opc_push_status m b) :=
  Inv_sp_dec (Inv_write _ _ _ h)

theorem Inv_pull_status {m : Machine} (h : Inv m) : Inv (_clem_opc_pull_status m) := by
  unfold _clem_opc_pull_status
  simp only [clem_read_snd, clem_cycle_pins]
  by_cases he : m.pins.emulation = true
  · simp only [he, if_true, sp_inc_pins, clem_cycle_pins]
    refine Inv_apply_m_x ?_
    intro _
    refine ⟨rfl, rfl, ?_⟩
    show (_cpu_sp_inc (_clem_cycle m 1)).regs.S / 256 = 1
    rw [sp_inc_S_div]
    · simpa using (h.2 he).2.2
    · simpa using he
  · simp only [he, if_false, sp_inc_pins, clem_cycle_pins]
    refine Inv_apply_m_x ?_
    intro hc
    exact absurd hc he

theorem pull_reg_816_fst_lt {m : Machine} {reg : Nat} (h : reg < 256) :
    (_clem_opc_pull_reg_816 m reg true).1 < 256 := by
  unfold _clem_opc_pull_reg_816
  exact set16_lo_lt _ _ h

theorem Inv_pull_reg_816_snd {m : Machine} (reg : Nat) (is8 : Bool) (h : Inv m) :
    Inv (_clem_opc_pull_reg_816 m reg is8).2 := by
  unfold _clem_opc_pull_reg_816
  by_cases h8 : is8 = true
  · simp only [h8, if_true]
    exact Inv_sp_inc (Inv_read _ _ (Inv_cycle _ h))
  · simp only [h8, if_false]
    exact Inv_sp_inc2 (Inv_read _ _ (Inv_read _ _ (Inv_cycle _ h)))

theorem Inv_pull_reg_8_snd {m : Machine} (h : Inv m) :
    Inv (_clem_opc_pull_reg_8 m).2 :=
  Inv_sp_inc (Inv_read _ _ (Inv_cycle _ h))

@[simp] theorem read_vector_snd (m : Machine) (vlo vhi : Nat) :
    (_clem_read_interrupt_vector m vlo vhi).2 = _clem_cycle (_clem_cycle m 1) 1 := rfl

@[simp] theorem apply_m_x_pins (m : Machine) :
    (_cpu_p_flags_apply_m_x m).pins = m.pins := by
  unfold _cpu_p_flags_apply_m_x
  split <;> rfl

@[simp] theorem pull_status_pins (m : Machine) :
    (_clem_opc_pull_status m).pins = m.pins := by
  unfold _clem_opc_pull_status
  simp

theorem Inv_irq_brk_setup_snd {m : Machine} (pc vlo vhi : Nat) (b : Bool) (h : Inv m) :
    Inv (_clem_irq_brk_setup m pc vlo vhi b).2 := by
  refine Inv_transfer h ?_ ?_ ?_ ?_ ?_ ?_ <;>
    unfold _clem_irq_brk_setup <;>
    by_cases he : m.pins.emulation = true <;>
    simp [he]

theorem Inv_irq_brk_return_snd {m : Machine} (h : Inv m) :
    Inv (_clem_irq_brk_return m).2 := by
  have hp : Inv (_clem_opc_pull_status m) := Inv_pull_status h
  refine Inv_transfer hp ?_ ?_ ?_ ?_ ?_ ?_ <;>
    unfold _clem_irq_brk_return <;>
    by_cases he : m.pins.emulation = true <;>
    simp [he]

theorem Inv_setA {m : Machine} (v : Nat) (h : Inv m) :
    Inv { m with regs := { m.regs with A := v } } := h

theorem Inv_setD {m : Machine} (v : Nat) (h : Inv m) :
    Inv { m with regs := { m.regs with D := v } } := h

theorem Inv_setPBR {m : Machine} (v : Nat) (h : Inv m) :
    Inv { m with regs := { m.regs with PBR := v } } := h

theorem Inv_setDBR {m : Machine} (v : Nat) (h : Inv m) :
    Inv { m with regs := { m.regs with DBR := v } } := h

@[simp] theorem read_pba_snd (m : Machine) (pc : Nat) :
    (_clem_read_pba m pc).2.2 = _clem_cycle m 1 := rfl

@[simp] theorem read_pba_pc (m : Machine) (pc : Nat) :
    (_clem_read_pba m pc).2.1 = (pc + 1) % 65536 := rfl

@[simp] theorem read_pba_fst (m : Machine) (pc : Nat) :
    (_clem_read_pba m pc).1 = m.mem (memAddr m.regs.PBR pc) % 256 := rfl

@[simp] theorem read_pba16_snd (m : Machine) (pc : Nat) :
    (_clem_read_pba_16 m pc).2.2 = _clem_cycle (_clem_cycle m 1) 1 := rfl

@[simp] theorem pull_reg_816_snd_pins (m : Machine) (reg : Nat) (is8 : Bool) :
    (_clem_opc_pull_reg_816 m reg is8).2.pins = m.pins := by
  unfold _clem_opc_pull_reg_816
  by_cases h8 : is8 = true <;> simp [h8]

@[simp] theorem pull_reg_816_snd_P (m : Machine) (reg : Nat) (is8 : Bool) :
    (_clem_opc_pull_reg_816 m reg is8).2.regs.P = m.regs.P := by
  unfold _clem_opc_pull_reg_816
  by_cases h8 : is8 = true <;> simp [h8]

@[simp] theorem pull_reg_816_snd_X (m : Machine) (reg : Nat) (is8 : Bool) :
    (_clem_opc_pull_reg_816 m reg is8).2.regs.X = m.regs.X := by
  unfold _clem_opc_pull_reg_816
  by_cases h8 : is8 = true <;> simp [h8]

@[simp] theorem pull_reg_816_snd_Y (m : Machine) (reg : Nat) (is8 : Bool) :
    (_clem_opc_pull_reg_816 m reg is8).2.regs.Y = m.regs.Y := by
  unfold _clem_opc_pull_reg_816
  by_cases h8 : is8 = true <;> simp [h8]

@[simp] theorem pull_reg_816_snd_S_div (m : Machine) (reg : Nat) (is8 : Bool)
    (he : m.pins.emulation = true) :
    (_clem_opc_pull_reg_816 m reg is8).2.regs.S / 256 = m.regs.S / 256 := by
  unfold _clem_opc_pull_reg_816
  by_cases h8 : is8 = true <;> simp [h8, he]

theorem testBit_or48_4 (x : Nat) : (x ||| 48).testBit 4 = true := by
  simp [Nat.testBit_or]
  right
  decide

theorem testBit_or48_5 (x : Nat) : (x ||| 48).testBit 5 = true := by
  simp [Nat.testBit_or]
  right
  decide

@[simp] theorem endInstr_pins (m : Machine) (pc : Nat) : (endInstr m pc).pins = m.pins := rfl

@[simp] theorem endInstr_P (m : Machine) (pc : Nat) : (endInstr m pc).regs.P = m.regs.P := rfl

@[simp] theorem endInstr_X (m : Machine) (pc : Nat) : (endInstr m pc).regs.X = m.regs.X := rfl

@[simp] theorem endInstr_Y (m : Machine) (pc : Nat) : (endInstr m pc).regs.Y = m.regs.Y := rfl

@[simp] theorem endInstr_S (m : Machine) (pc : Nat) : (endInstr m pc).regs.S = m.regs.S := rfl

@[simp] theorem endInstr_A (m : Machine) (pc : Nat) : (endInstr m pc).regs.A = m.regs.A := rfl

@[simp] theorem endInstr_PC (m : Machine) (pc : Nat) : (endInstr m pc).regs.PC = pc % 65536 := rfl

@[simp] theorem endInstr_mem (m : Machine) (pc : Nat) : (endInstr m pc).mem = m.mem := rfl

@[simp] theorem endInstr_cycles (m : Machine) (pc : Nat) : (endInstr m pc).cyclesSpent = m.cyclesSpent := rfl

@[simp] theorem endInstr_stateType (m : Machine) (pc : Nat) : (endInstr m pc).stateType = m.stateType := rfl

@[simp] theorem endInstr_enabled (m : Machine) (pc : Nat) : (endInstr m pc).enabled = m.enabled := rfl

theorem Inv_execOp (op : Op) (m : Machine) (pc : Nat) (h : Inv m) :
    Inv (execOp op m pc) := by
  obtain ⟨h1, h2⟩ := h
  have h : Inv m := ⟨h1, h2⟩
  cases op
  case XCE =>
    simp only [execOp]
    by_cases he : m.pins.emulation = true <;> by_cases hc : m.regs.P.carry = true <;>
        simp [he, hc, _cpu_p_flags_apply_m_x]
    · exact ⟨h1, fun _ => h2 he⟩
    · exact ⟨fun _ => ⟨Nat.mod_lt _ (by omega), Nat.mod_lt _ (by omega)⟩,
        fun hcon => absurd hcon (by simp)⟩
    · refine ⟨fun _ => ⟨Nat.mod_lt _ (by omega), Nat.mod_lt _ (by omega)⟩,
        fun _ => ⟨rfl, rfl, ?_⟩⟩
      show CLEM_UTIL_set16_lo 256 m.regs.S / 256 = 1
      rw [set16_lo_div]
    · exact ⟨h1, fun hcon => absurd hcon (by simp)⟩
  case REP =>
    simp only [execOp, read_pba_snd, read_pba_pc, read_pba_fst, clem_cycle_pins]
    by_cases he : m.pins.emulation = true <;> simp only [he, eq_self_iff_true, if_true, if_false,
      Bool.false_eq_true]
    · exact Inv_endInstr _ (Inv_cycle _ (Inv_apply_m_x (fun _ => ⟨rfl, rfl, (h2 he).2.2⟩)))
    · exact Inv_endInstr _ (Inv_cycle _ (Inv_apply_m_x (fun hc => absurd hc he)))
  case SEP =>
    simp only [execOp, read_pba_snd, read_pba_pc, read_pba_fst, clem_cycle_pins]
    by_cases he : m.pins.emulation = true <;> simp only [he, eq_self_iff_true, if_true, if_false,
      Bool.false_eq_true]
    · refine Inv_endInstr _ (Inv_cycle _ (Inv_apply_m_x (fun _ => ⟨?_, ?_, (h2 he).2.2⟩)))
      · simp [testBit_or48_5]
        exact Or.inr (Or.inr (by decide))
      · simp [testBit_or48_4]
        exact Or.inr (Or.inr (by decide))
    · exact Inv_endInstr _ (Inv_cycle _ (Inv_apply_m_x (fun hc => absurd hc he)))
  case PLP =>
    exact Inv_endInstr _ (Inv_pull_status (Inv_cycle _ h))
  case RTI =>
    exact Inv_endInstr _ (Inv_irq_brk_return_snd (Inv_cycle _ h))
  case BRK =>
    simp only [execOp, read_pba_snd, read_pba_pc, clem_cycle_pins]
    by_cases he : m.pins.emulation = true <;>
        simp only [he, if_true, if_false, Bool.false_eq_true] <;>
      exact Inv_endInstr _ (Inv_irq_brk_setup_snd _ _ _ _ (Inv_cycle _ h))
  case COP =>
    simp only [execOp, read_pba_snd, read_pba_pc, clem_cycle_pins]
    by_cases he : m.pins.emulation = true <;>
        simp only [he, if_true, if_false, Bool.false_eq_true] <;>
      exact Inv_endInstr _ (Inv_irq_brk_setup_snd _ _ _ _ (Inv_cycle _ h))
  case JSR =>
    exact Inv_endInstr _ (Inv_push_pc16 _ (Inv_cycle _ (Inv_cycle _ (Inv_cycle _ h))))
  case RTS =>
    exact Inv_endInstr _ (Inv_sp_inc2 (Inv_cycle _ (Inv_cycle _ (Inv_cycle _
      (Inv_cycle _ h)))))
  case JSL =>
    simp only [execOp, read_pba16_snd, read_pba_snd, read_pba_pc, read_pba_fst,
      clem_read_snd, clem_read_fst]
    exact Inv_endInstr _ (Inv_setPBR _ (Inv_sp_dec3 (Inv_write _ _ _ (Inv_write _ _ _
      (Inv_cycle _ (Inv_cycle _ (Inv_write _ _ _ (Inv_cycle _ (Inv_cycle _ h)))))))))
  case RTL =>
    simp only [execOp, clem_read_snd, clem_read_fst]
    exact Inv_endInstr _ (Inv_setPBR _ (Inv_sp_inc3 (Inv_cycle _ (Inv_cycle _
      (Inv_cycle _ (Inv_cycle _ h))))))
  case PHA =>
    exact Inv_endInstr _ (Inv_push_reg_816 _ _ h)
  case PHB =>
    exact Inv_endInstr _ (Inv_sp_dec (Inv_write _ _ _ (Inv_cycle _ h)))
  case PHD =>
    exact Inv_endInstr _ (Inv_sp_dec2 (Inv_write _ _ _ (Inv_write _ _ _ (Inv_cycle _ h))))
  case PHK =>
    exact Inv_endInstr _ (Inv_sp_dec (Inv_write _ _ _ (Inv_cycle _ h)))
  case PHP =>
    exact Inv_endInstr _ (Inv_push_status _ (Inv_cycle _ h))
  case PHX =>
    exact Inv_endInstr _ (Inv_push_reg_816 _ _ h)
  case PHY =>
    exact Inv_endInstr _ (Inv_push_reg_816 _ _ h)
  case PLA =>
    exact Inv_endInstr _ (Inv_nz16 _ (Inv_setA _ (Inv_pull_reg_816_snd _ _ h)))
  case PLB =>
    exact Inv_endInstr _ (Inv_nz _ (Inv_setDBR _ (Inv_pull_reg_8_snd h)))
  case PLD =>
    exact Inv_endInstr _ (Inv_nz16 _ (Inv_sp_inc2 (Inv_setD _ (Inv_cycle _ (Inv_cycle _
      (Inv_cycle _ h))))))
  case PLX =>
    simp only [execOp]
    by_cases hx : m.regs.P.index = true <;>
      simp only [hx, eq_self_iff_true, if_true, if_false, Bool.false_eq_true]
    · constructor
      · intro _
        refine ⟨pull_reg_816_fst_lt (h1 hx).1, ?_⟩
        show (_clem_opc_pull_reg_816 m m.regs.X true).2.regs.Y < 256
        rw [pull_reg_816_snd_Y]
        exact (h1 hx).2
      · intro he'
        have he : m.pins.emulation = true := by
          have : (_clem_opc_pull_reg_816 m m.regs.X true).2.pins.emulation = true := he'
          rwa [pull_reg_816_snd_pins] at this
        refine ⟨(h2 he).1, (h2 he).2.1, ?_⟩
        show (_clem_opc_pull_reg_816 m m.regs.X true).2.regs.S / 256 = 1
        rw [pull_reg_816_snd_S_div _ _ _ he]
        exact (h2 he).2.2
    · constructor
      · intro hi
        exact absurd hi hx
      · intro he'
        have he : m.pins.emulation = true := by
          have : (_clem_opc_pull_reg_816 m m.regs.X false).2.pins.emulation = true := he'
          rwa [pull_reg_816_snd_pins] at this
        exact absurd ((h2 he).2.1) hx
  case PLY =>
    simp only [execOp]
    by_cases hx : m.regs.P.index = true <;>
      simp only [hx, eq_self_iff_true, if_true, if_false, Bool.false_eq_true]
    · constructor
      · intro _
        refine ⟨?_, pull_reg_816_fst_lt (h1 hx).2⟩
        show (_clem_opc_pull_reg_816 m m.regs.Y true).2.regs.X < 256
        rw [pull_reg_816_snd_X]
        exact (h1 hx).1
      · intro he'
        have he : m.pins.emulation = true := by
          have : (_clem_opc_pull_reg_816 m m.regs.Y true).2.pins.emulation = true := he'
          rwa [pull_reg_816_snd_pins] at this
        refine ⟨(h2 he).1, (h2 he).2.1, ?_⟩
        show (_clem_opc_pull_reg_816 m m.regs.Y true).2.regs.S / 256 = 1
        rw [pull_reg_816_snd_S_div _ _ _ he]
        exact (h2 he).2.2
    · constructor
      · intro hi
        exact absurd hi hx
      · intro he'
        have he : m.pins.emulation = true := by
          have : (_clem_opc_pull_reg_816 m m.regs.Y false).2.pins.emulation = true := he'
          rwa [pull_reg_816_snd_pins] at this
        exact absurd ((h2 he).2.1) hx
  case PEA =>
    exact Inv_endInstr _ (Inv_write _ _ _ (Inv_write _ _ _ (Inv_sp_dec2 (Inv_cycle _
      (Inv_cycle _ h)))))
  case PER =>
    exact Inv_endInstr _ (Inv_write _ _ _ (Inv_write _ _ _ (Inv_sp_dec2 (Inv_cycle _
      (Inv_cycle _ (Inv_cycle _ h))))))
  case MVN =>
    simp only [execOp]
    by_cases hx : m.regs.P.index = true <;> simp only [hx, eq_self_iff_true, if_true, if_false, Bool.false_eq_true]
    · exact ⟨fun _ => ⟨set16_lo_lt _ _ (h1 hx).1, set16_lo_lt _ _ (h1 hx).2⟩, h2⟩
    · exact ⟨fun hi => absurd hi hx, h2⟩
  case MVP =>
    simp only [execOp]
    by_cases hx : m.regs.P.index = true <;> simp only [hx, eq_self_iff_true, if_true, if_false, Bool.false_eq_true]
    · exact ⟨fun _ => ⟨set16_lo_lt _ _ (h1 hx).1, set16_lo_lt _ _ (h1 hx).2⟩, h2⟩
    · exact ⟨fun hi => absurd hi hx, h2⟩
  case LDX_IMM =>
    simp only [execOp]
    by_cases hx : m.regs.P.index = true <;> simp only [hx, eq_self_iff_true, if_true, if_false, Bool.false_eq_true]
    · exact ⟨fun _ => ⟨set16_lo_lt _ _ (h1 hx).1, (h1 hx).2⟩, h2⟩
    · exact ⟨fun hi => absurd hi hx, h2⟩
  case LDY_IMM =>
    simp only [execOp]
    by_cases hx : m.regs.P.index = true <;> simp only [hx, eq_self_iff_true, if_true, if_false, Bool.false_eq_true]
    · exact ⟨fun _ => ⟨(h1 hx).1, set16_lo_lt _ _ (h1 hx).2⟩, h2⟩
    · exact ⟨fun hi => absurd hi hx, h2⟩
  case LDX_ABS =>
    simp only [execOp]
    by_cases hx : m.regs.P.index = true <;> simp only [hx, eq_self_iff_true, if_true, if_false, Bool.false_eq_true]
    · exact ⟨fun _ => ⟨set16_lo_lt _ _ (h1 hx).1, (h1 hx).2⟩, h2⟩
    · exact ⟨fun hi => absurd hi hx, h2⟩
  case LDX_DP =>
    simp only [execOp]
    by_cases hx : m.regs.P.index = true <;> simp only [hx, eq_self_iff_true, if_true, if_false, Bool.false_eq_true]
    · exact ⟨fun _ => ⟨set16_lo_lt _ _ (h1 hx).1, (h1 hx).2⟩, h2⟩
    · exact ⟨fun hi => absurd hi hx, h2⟩
  case LDX_ABS_IDY =>
    simp only [execOp]
    by_cases hx : m.regs.P.index = true <;> simp only [hx, eq_self_iff_true, if_true, if_false, Bool.false_eq_true]
    · exact ⟨fun _ => ⟨set16_lo_lt _ _ (h1 hx).1, (h1 hx).2⟩, h2⟩
    · exact ⟨fun hi => absurd hi hx, h2⟩
  case LDX_DP_IDY =>
    simp only [execOp]
    by_cases hx : m.regs.P.index = true <;> simp only [hx, eq_self_iff_true, if_true, if_false, Bool.false_eq_true]
    · exact ⟨fun _ => ⟨set16_lo_lt _ _ (h1 hx).1, (h1 hx).2⟩, h2⟩
    · exact ⟨fun hi => absurd hi hx, h2⟩
  case LDY_ABS =>
    simp only [execOp]
    by_cases hx : m.regs.P.index = true <;> simp only [hx, eq_self_iff_true, if_true, if_false, Bool.false_eq_true]
    · exact ⟨fun _ => ⟨(h1 hx).1, set16_lo_lt _ _ (h1 hx).2⟩, h2⟩
    · exact ⟨fun hi => absurd hi hx, h2⟩
  case LDY_DP =>
    simp only [execOp]
    by_cases hx : m.regs.P.index = true <;> simp only [hx, eq_self_iff_true, if_true, if_false, Bool.false_eq_true]
    · exact ⟨fun _ => ⟨(h1 hx).1, set16_lo_lt _ _ (h1 hx).2⟩, h2⟩
    · exact ⟨fun hi => absurd hi hx, h2⟩
  case LDY_ABS_IDX =>
    simp only [execOp]
    by_cases hx : m.regs.P.index = true <;> simp only [hx, eq_self_iff_true, if_true, if_false, Bool.false_eq_true]
    · exact ⟨fun _ => ⟨(h1 hx).1, set16_lo_lt _ _ (h1 hx).2⟩, h2⟩
    · exact ⟨fun hi => absurd hi hx, h2⟩
  case LDY_DP_IDX =>
    simp only [execOp]
    by_cases hx : m.regs.P.index = true <;> simp only [hx, eq_self_iff_true, if_true, if_false, Bool.false_eq_true]
    · exact ⟨fun _ => ⟨(h1 hx).1, set16_lo_lt _ _ (h1 hx).2⟩, h2⟩
    · exact ⟨fun hi => absurd hi hx, h2⟩
  case INX =>
    simp only [execOp]
    by_cases hx : m.regs.P.index = true <;> simp only [hx, eq_self_iff_true, if_true, if_false, Bool.false_eq_true]
    · exact ⟨fun _ => ⟨set16_lo_lt _ _ (h1 hx).1, (h1 hx).2⟩, h2⟩
    · exact ⟨fun hi => absurd hi hx, h2⟩
  case INY =>
    simp only [execOp]
    by_cases hx : m.regs.P.index = true <;> simp only [hx, eq_self_iff_true, if_true, if_false, Bool.false_eq_true]
    · exact ⟨fun _ => ⟨(h1 hx).1, set16_lo_lt _ _ (h1 hx).2⟩, h2⟩
    · exact ⟨fun hi => absurd hi hx, h2⟩
  case DEX =>
    simp only [execOp]
    by_cases hx : m.regs.P.index = true <;> simp only [hx, eq_self_iff_true, if_true, if_false, Bool.false_eq_true]
    · exact ⟨fun _ => ⟨set16_lo_lt _ _ (h1 hx).1, (h1 hx).2⟩, h2⟩
    · exact ⟨fun hi => absurd hi hx, h2⟩
  case DEY =>
    simp only [execOp]
    by_cases hx : m.regs.P.index = true <;> simp only [hx, eq_self_iff_true, if_true, if_false, Bool.false_eq_true]
    · exact ⟨fun _ => ⟨(h1 hx).1, set16_lo_lt _ _ (h1 hx).2⟩, h2⟩
    · exact ⟨fun hi => absurd hi hx, h2⟩
  case TAX =>
    simp only [execOp]
    by_cases hx : m.regs.P.index = true <;> simp only [hx, eq_self_iff_true, if_true, if_false, Bool.false_eq_true]
    · exact ⟨fun _ => ⟨set16_lo_lt _ _ (h1 hx).1, (h1 hx).2⟩, h2⟩
    · exact ⟨fun hi => absurd hi hx, h2⟩
  case TAY =>
    simp only [execOp]
    by_cases hx : m.regs.P.index = true <;> simp only [hx, eq_self_iff_true, if_true, if_false, Bool.false_eq_true]
    · exact ⟨fun _ => ⟨(h1 hx).1, set16_lo_lt _ _ (h1 hx).2⟩, h2⟩
    · exact ⟨fun hi => absurd hi hx, h2⟩
  case TCD =>
    exact h
  case TDC =>
    exact h
  case TCS =>
    simp only [execOp]
    by_cases he : m.pins.emulation = true <;> simp only [he, eq_self_iff_true, if_true, if_false,
      Bool.false_eq_true]
    · refine ⟨h1, fun _ => ⟨(h2 he).1, (h2 he).2.1, ?_⟩⟩
      show CLEM_UTIL_set16_lo m.regs.S m.regs.A / 256 = 1
      rw [set16_lo_div]
      exact (h2 he).2.2
    · exact ⟨h1, fun hc => absurd hc he⟩
  case TSC =>
    exact h
  case TSX =>
    simp only [execOp]
    by_cases he : m.pins.emulation = true <;> by_cases hx : m.regs.P.index = true <;>
      simp only [he, hx, eq_self_iff_true, Bool.not_true, Bool.not_false, Bool.false_and,
        Bool.true_and, Bool.and_false, Bool.and_true, if_true, if_false, Bool.false_eq_true]
    · exact ⟨fun _ => ⟨set16_lo_lt _ _ (h1 hx).1, (h1 hx).2⟩, h2⟩
    · exact absurd ((h2 he).2.1) hx
    · exact ⟨fun _ => ⟨set16_lo_lt _ _ (h1 hx).1, (h1 hx).2⟩, h2⟩
    · exact ⟨fun hi => absurd hi hx, fun hc => absurd hc he⟩
  case TXA =>
    simp only [execOp]
    by_cases hm : m.regs.P.memAcc = true <;> simp only [hm, eq_self_iff_true, if_true, if_false, Bool.false_eq_true] <;>
      exact h
  case TXS =>
    simp only [execOp]
    by_cases he : m.pins.emulation = true <;> by_cases hx : m.regs.P.index = true <;>
      simp only [he, hx, eq_self_iff_true, if_true, if_false, Bool.false_eq_true]
    · refine ⟨h1, fun _ => ⟨(h2 he).1, (h2 he).2.1, ?_⟩⟩
      show CLEM_UTIL_set16_lo m.regs.S m.regs.X / 256 = 1
      rw [set16_lo_div]
      exact (h2 he).2.2
    · refine ⟨h1, fun _ => ⟨(h2 he).1, (h2 he).2.1, ?_⟩⟩
      show CLEM_UTIL_set16_lo m.regs.S m.regs.X / 256 = 1
      rw [set16_lo_div]
      exact (h2 he).2.2
    · exact ⟨h1, fun hc => absurd hc he⟩
    · exact ⟨h1, fun hc => absurd hc he⟩
  case TXY =>
    simp only [execOp]
    by_cases hx : m.regs.P.index = true <;> simp only [hx, eq_self_iff_true, if_true, if_false, Bool.false_eq_true]
    · exact ⟨fun _ => ⟨(h1 hx).1, set16_lo_lt _ _ (h1 hx).2⟩, h2⟩
    · exact ⟨fun hi => absurd hi hx, h2⟩
  case TYA =>
    simp only [execOp]
    by_cases hm : m.regs.P.memAcc = true <;> simp only [hm, eq_self_iff_true, if_true, if_false, Bool.false_eq_true] <;>
      exact h
  case TYX =>
    simp only [execOp]
    by_cases hx : m.regs.P.index = true <;> simp only [hx, eq_self_iff_true, if_true, if_false, Bool.false_eq_true]
    · exact ⟨fun _ => ⟨set16_lo_lt _ _ (h1 hx).1, (h1 hx).2⟩, h2⟩
    · exact ⟨fun hi => absurd hi hx, h2⟩
  case XBA =>
    exact h
  case SEC =>
    exact h
  case SED =>
    exact h
  case SEI =>
    exact h
  case CLC =>
    exact h
  case CLD =>
    exact h
  case CLI =>
    exact h
  case CLV =>
    exact h
  case NOP =>
    exact h
  case WAI =>
    exact h
  case STP =>
    exact h

theorem Inv_cpu_execute (m : Machine) (h : Inv m) : Inv (cpu_execute m) := by
  unfold cpu_execute
  have h2 : Inv { (clem_read m m.regs.PC m.regs.PBR).2 with
      regs := { (clem_read m m.regs.PC m.regs.PBR).2.regs with
        IR := (clem_read m m.regs.PC m.regs.PBR).1 } } := h
  rcases hd : decodeOp (clem_read m m.regs.PC m.regs.PBR).1 with _ | op <;>
    simp only [hd]
  · exact Inv_endInstr _ h2
  · exact Inv_execOp op _ _ h2

theorem Inv_emulate (m : Machine) (h : Inv m) : Inv (clemens_emulate_cpu m) := by
  unfold clemens_emulate_cpu
  by_cases hr : m.pins.resbIn = false
  · simp only [hr, eq_self_iff_true, if_true]
    by_cases hs : m.stateType = CPUStateType.Reset <;>
      simp only [hs, ne_eq, eq_self_iff_true, not_true, not_false_iff, if_true, if_false,
        Bool.false_eq_true, not_false_eq_true]
    · split
      · split
        · exact h
        · exact h
      · exact h
    · have hInit : Inv { m with
          stateType := CPUStateType.Reset,
          regs := { m.regs with
            D := 0, DBR := 0, PBR := 0,
            S := m.regs.S % 256 + 256,
            X := m.regs.X % 256, Y := m.regs.Y % 256,
            P := { m.regs.P with
              memAcc := true, index := true, irqDisable := true,
              decimal := false, carry := false } },
          pins := { m.pins with emulation := true, readyOut := true },
          enabled := true } :=
        ⟨fun _ => ⟨Nat.mod_lt _ (by omega), Nat.mod_lt _ (by omega)⟩,
         fun _ => ⟨rfl, rfl, by show (m.regs.S % 256 + 256) / 256 = 1; omega⟩⟩
      split
      · split
        · exact Inv_transfer (Inv_cycle 1 (Inv_cycle 1 hInit)) rfl rfl rfl rfl rfl
            (fun _ => rfl)
        · exact Inv_transfer (Inv_cycle 1 (Inv_cycle 1 hInit)) rfl rfl rfl rfl rfl
            (fun _ => rfl)
      · exact Inv_cycle 1 (Inv_cycle 1 hInit)
  · replace hr : m.pins.resbIn = true := by
      revert hr
      cases m.pins.resbIn <;> simp
    rw [hr, if_neg (show ¬(true = false) by decide)]
    by_cases hen : m.enabled = false
    · simp only [hen, eq_self_iff_true, if_true]
      exact h
    · replace hen : m.enabled = true := by
        revert hen
        cases m.enabled <;> simp
      rw [hen, if_neg (show ¬(true = false) by decide)]
      cases hst : m.stateType <;>
        simp only [clem_read_snd, read_vector_snd]
      · exact Inv_transfer (Inv_cycle 1 (Inv_cycle 1 (Inv_sp_dec (Inv_cycle 1
          (Inv_sp_dec2 (Inv_cycle 1 (Inv_cycle 1 h))))))) rfl rfl rfl rfl rfl
          (fun _ => rfl)
      · exact Inv_transfer (Inv_irq_brk_setup_snd ((_clem_cycle m 2).regs.PC)
          (if m.pins.emulation = true then CLEM_6502_IRQBRK_VECTOR_LO_ADDR
           else CLEM_65816_IRQB_VECTOR_LO_ADDR)
          (if m.pins.emulation = true then CLEM_6502_IRQBRK_VECTOR_HI_ADDR
           else CLEM_65816_IRQB_VECTOR_HI_ADDR) false (Inv_cycle 2 h))
          rfl rfl rfl rfl rfl (fun _ => rfl)
      · exact Inv_transfer (Inv_irq_brk_setup_snd ((_clem_cycle m 2).regs.PC)
          (if m.pins.emulation = true then CLEM_6502_NMI_VECTOR_LO_ADDR
           else CLEM_65816_NMI_VECTOR_LO_ADDR)
          (if m.pins.emulation = true then CLEM_6502_NMI_VECTOR_HI_ADDR
           else CLEM_65816_NMI_VECTOR_LO_ADDR) false (Inv_cycle 2 h))
          rfl rfl rfl rfl rfl (fun _ => rfl)
      · exact Inv_cpu_execute _ h

/-- Status register used by the concrete test machines: M=1, X=1, all
other flags clear. -/
def sampleP : PReg := ⟨false, false, false, false, true, true, false, false⟩

/-- Register file used by the concrete test machines. -/
def sampleRegs : Regs := ⟨0x1234, 0x10, 0x20, 0x01FD, 0, 0, 0, 0x2000, 0, sampleP⟩

/-- A concrete machine with the given state variant, emulation pin and
memory; reset and IRQ lines deasserted, 1000 cycles spent so far. -/
def sampleMachine (st : CPUStateType) (emu : Bool) (mem : Nat → Nat) : Machine :=
  ⟨sampleRegs, ⟨true, true, emu, true⟩, true, st, 1000, mem,
   fun _ => 0, fun _ => 0, fun _ => false, ⟨1, 1, 1, 0⟩, 0⟩

/-- Memory holding 0x34 at the native NMI vector low address and 0x12 at
the one above it. -/
def nmiTestMem : Nat → Nat := fun a =>
  if a = 0xFFEA then 0x34 else if a = 0xFFEB then 0x12 else 0

/-- C1: in native mode with a pending NMI, the step entry point is
claimed to load the new PC low byte from the NMI vector low address and
the high byte from the address one above it.  The source instead passes
the low vector address for both bytes, so with 0x34 at FFEA and 0x12 at
FFEB the new PC is 0x3434 rather than 0x1234: the claim fails on the
code. -/
theorem nmi_native_vector_highbyte_from_low_addr :
    (clemens_emulate_cpu (sampleMachine CPUStateType.NMI false nmiTestMem)).regs.PC =
      0x3434 ∧
    (clemens_emulate_cpu (sampleMachine CPUStateType.NMI false nmiTestMem)).regs.PC ≠
      0x1234 ∧
    (clemens_emulate_cpu (sampleMachine CPUStateType.NMI false nmiTestMem)).stateType =
      CPUStateType.Execute := by
  refine ⟨by decide, by decide, by decide⟩

/-- Memory with WAI at 0x2000 and NOP everywhere else. -/
def waiTestMem : Nat → Nat := fun a => if a = 0x2000 then 0xCB else 0xEA

/-- The concrete machine about to execute WAI. -/
def waiMachine : Machine := sampleMachine CPUStateType.Execute true waiTestMem

/-- C3: after WAI lowers ready_out, the claim says every further call to
the step entry point refuses to advance until irqb_in or resb_in is
asserted.  The source never tests readyOut: with reset and IRQ lines
both deasserted, the call after WAI still fetches and executes the next
instruction (a NOP here), advancing PC and charging two cycles, so the
claim fails on the code. -/
theorem wai_does_not_block_next_step :
    (clemens_emulate_cpu waiMachine).pins.readyOut = false ∧
    (clemens_emulate_cpu waiMachine).pins.resbIn = true ∧
    (clemens_emulate_cpu waiMachine).pins.irqbIn = true ∧
    (clemens_emulate_cpu waiMachine).regs.PC = 0x2001 ∧
    (clemens_emulate_cpu (clemens_emulate_cpu waiMachine)).regs.PC = 0x2002 ∧
    (clemens_emulate_cpu (clemens_emulate_cpu waiMachine)).cyclesSpent =
      (clemens_emulate_cpu waiMachine).cyclesSpent + 2 := by
  refine ⟨by decide, by decide, by decide, by decide, by decide, by decide⟩

/-- Memory with COP at 0x2000 and 0x21 / 0x43 at the emulation-mode COP
vector pair FFF4 / FFF5. -/
def copTestMem : Nat → Nat := fun a =>
  if a = 0x2000 then 0x02
  else if a = 0xFFF4 then 0x21
  else if a = 0xFFF5 then 0x43 else 0

/-- The concrete emulation-mode machine about to execute COP. -/
def copMachine : Machine := sampleMachine CPUStateType.Execute true copTestMem

/-- C4: in emulation mode, COP is claimed to load the PC low byte from
the COP vector low address and the high byte from the address above it.
The source passes the low vector address for both bytes, so with 0x21 at
FFF4 and 0x43 at FFF5 the new PC is 0x2121 rather than 0x4321; the I
flag is set and D cleared as claimed. -/
theorem cop_emulation_vector_highbyte_from_low_addr :
    (cpu_execute copMachine).regs.PC = 0x2121 ∧
    (cpu_execute copMachine).regs.PC ≠ 0x4321 ∧
    (cpu_execute copMachine).regs.P.irqDisable = true ∧
    (cpu_execute copMachine).regs.P.decimal = false := by
  refine ⟨by decide, by decide, by decide, by decide⟩

/-- The Intel HEX EOF record with a wrong checksum byte (FE instead of
FF) and nothing after it. -/
def hexMismatchEOF : List Char := ":00000001FE".toList

/-- C6: the claim says a checksum mismatch in the final record of the
input is reported as a parse failure.  The source only returns false on
an iteration that starts in the error state, and when the mismatch is
detected while consuming the last input character the loop exits first:
clemens_load_hex accepts the lone mismatched EOF record, returning true.
The same record followed by more input is rejected, showing the check
itself works away from the end of input. -/
theorem load_hex_final_record_checksum_mismatch_accepted :
    (clemens_load_hex hexMismatchEOF true (fun _ => 0)).1 = true ∧
    (clemens_load_hex (hexMismatchEOF ++ (Char.ofNat 10 :: ":00000001FF".toList))
      true (fun _ => 0)).1 = false := by
  refine ⟨by decide, by decide⟩

/-- A machine whose reset pin state differs from what
clemens_simple_init establishes, to make initialization side effects
observable. -/
def initTestMachine : Machine :=
  { sampleMachine CPUStateType.Execute true (fun _ => 0) with
    pins := ⟨false, false, true, true⟩ }

/-- clemens_simple_init fails to return exactly when the fast-RAM
pointer is NULL and the clamped bank count is nonzero: the per-bank
memset then writes through the null pointer. -/
theorem simple_init_none_iff (m : Machine) (sf cs : Nat) (fr : Option Unit)
    (n : Nat) :
    clemens_simple_init m sf cs fr n = none ↔ (fr = none ∧ 0 < n) := by
  unfold clemens_simple_init
  by_cases hf : fr = none
  · by_cases hn : 0 < n
    · have hc : 0 < (if n > 256 then 256 else n) := by split <;> omega
      simp [hf, hn, hc]
    · have h0 : n = 0 := by omega
      subst h0
      simp [hf]
  · simp [hf]

/-- C7 counterexample: a failing clemens_init call (ROM missing, return
code -1) still mutates the machine: clemens_simple_init has already run
and raised the resb pin, so observable machine state changes on the
failing call, contradicting the claim that the core is left
untouched. -/
theorem clemens_init_failing_call_mutates_state :
    (clemens_init initTestMachine 10 2 none (some ()) (some ()) (some ()) 16).map
        Prod.fst = some (-1) ∧
    (clemens_init initTestMachine 10 2 none (some ()) (some ()) (some ()) 16).map
        (fun r => r.2.pins.resbIn) ≠ some initTestMachine.pins.resbIn := by
  refine ⟨by decide, by decide⟩

/-- C7 (amended): clemens_init with a NULL fast-RAM pointer and a
nonzero bank count never reaches its validation: clemens_simple_init
memsets the fast-RAM banks through the null pointer first, so that call
faults (modelled as none).  Every returning call yields -1 when the ROM
is missing, -2 when the bank count is below 4 or a RAM pointer is
missing, and 0 otherwise; and every failing returning call leaves the
machine exactly as clemens_simple_init set it, since the basic
initialization runs before the validation. -/
theorem clemens_init_error_codes (m : Machine) (sf cs : Nat)
    (rom e0 e1 fr : Option Unit) (n : Nat) :
    (fr = none ∧ 0 < n → clemens_init m sf cs rom e0 e1 fr n = none) ∧
    (¬(fr = none ∧ 0 < n) →
      (clemens_init m sf cs rom e0 e1 fr n).map Prod.fst =
        some (if rom = none then -1
              else if n < 4 ∨ fr = none ∨ e0 = none ∨ e1 = none then -2 else 0) ∧
      (rom = none ∨ n < 4 ∨ fr = none ∨ e0 = none ∨ e1 = none →
        (clemens_init m sf cs rom e0 e1 fr n).map Prod.snd =
          clemens_simple_init m sf cs fr n)) := by
  rcases hs : clemens_simple_init m sf cs fr n with _ | m1
  · obtain ⟨hf, hn⟩ := (simple_init_none_iff m sf cs fr n).mp hs
    refine ⟨fun _ => ?_, fun hc => absurd ⟨hf, hn⟩ hc⟩
    unfold clemens_init
    rw [hs]
  · have hnot : ¬(fr = none ∧ 0 < n) := by
      intro hc
      rw [(simple_init_none_iff m sf cs fr n).mpr hc] at hs
      exact Option.noConfusion hs
    refine ⟨fun hc => absurd hc hnot, fun _ => ?_⟩
    unfold clemens_init
    rw [hs]
    by_cases hrom : rom = none
    · simp [hrom, hs]
    · by_cases hbad : n < 4 ∨ fr = none ∨ e0 = none ∨ e1 = none
      · simp [hrom, hbad, hs]
      · simp [hrom, hbad]

/-- C7 witness: the error-code characterization applied to the concrete
failing call (ROM missing, fast-RAM present, 16 banks). -/
theorem clemens_init_error_codes_witness :
    ((some () : Option Unit) = none ∧ 0 < 16 →
      clemens_init initTestMachine 10 2 none (some ()) (some ()) (some ()) 16 = none) ∧
    (¬((some () : Option Unit) = none ∧ 0 < 16) →
      (clemens_init initTestMachine 10 2 none (some ()) (some ()) (some ()) 16).map
          Prod.fst =
        some (if (none : Option Unit) = none then -1
              else if 16 < 4 ∨ (some () : Option Unit) = none ∨
                (some () : Option Unit) = none ∨ (some () : Option Unit) = none
              then -2 else 0) ∧
      ((none : Option Unit) = none ∨ 16 < 4 ∨ (some () : Option Unit) = none ∨
          (some () : Option Unit) = none ∨ (some () : Option Unit) = none →
        (clemens_init initTestMachine 10 2 none (some ()) (some ()) (some ()) 16).map
            Prod.snd =
          clemens_simple_init initTestMachine 10 2 (some ()) 16)) :=
  clemens_init_error_codes initTestMachine 10 2 none (some ()) (some ()) (some ()) 16

/-- Bank memory distinguishing offset 0 (value 5) from the out-of-bank
offset 0x10000 (value 7); all other bytes are 9. -/
def outBinTestMem : Nat → Nat := fun a =>
  if a = 0 then 5 else if a = 0x10000 then 7 else 9

/-- C10: the claim says clemens_out_bin_data writes
out[i] = bank[(adr + i) mod 65536], placing the wrapped bytes at
out[65536 - adr].  In the wraparound branch the source copies the
wrapped segment to offset right0 - 0x10000 instead and then performs the
main copy with the unsigned 32-bit length (right0 and 0xffff) - adr,
which underflows; with adr = 0xFF00 and count 0x180 the byte at out
index 0x100 comes from the out-of-bank offset 0x10000 instead of bank
offset 0, so the claim fails on the code. -/
theorem out_bin_wraparound_wrong :
    clemens_out_bin_data outBinTestMem (fun _ => 0) 0x180 0xFF00 0x100 = 7 ∧
    outBinTestMem ((0xFF00 + 0x100) % 65536) = 5 ∧
    clemens_out_bin_data outBinTestMem (fun _ => 0) 0x180 0xFF00 0x100 ≠
      outBinTestMem ((0xFF00 + 0x100) % 65536) := by
  refine ⟨by decide, by decide, by decide⟩

/-- C8: one step of MVN decrements A by one (16-bit wrap), increments X
and Y (respecting the index-width flag: 8-bit increment keeps the high
byte when X=1), copies one byte from the source bank at offset X to the
destination bank at offset Y, sets DBR to the destination bank (the
first operand byte), rewinds PC to re-execute the opcode unless A has
reached 0xFFFF (in which case PC moves past both operand bytes), and
charges six cycles beyond the opcode fetch; MVP is identical with X and
Y decremented.  S and the pins are untouched. -/
theorem mvn_mvp_block_move_step (s : Machine) (pc : Nat) :
    ((execOp Op.MVN s pc).regs.A = (65535 + s.regs.A) % 65536 ∧
     (execOp Op.MVN s pc).regs.X =
       (if s.regs.P.index = true then CLEM_UTIL_set16_lo s.regs.X (s.regs.X + 1)
        else (s.regs.X + 1) % 65536) ∧
     (execOp Op.MVN s pc).regs.Y =
       (if s.regs.P.index = true then CLEM_UTIL_set16_lo s.regs.Y (s.regs.Y + 1)
        else (s.regs.Y + 1) % 65536) ∧
     (execOp Op.MVN s pc).regs.DBR = s.mem (memAddr s.regs.PBR pc) % 256 ∧
     (execOp Op.MVN s pc).regs.PC =
       (if (65535 + s.regs.A) % 65536 ≠ 65535 then s.regs.PC % 65536
        else (pc + 2) % 65536) ∧
     (execOp Op.MVN s pc).mem
         (memAddr (s.mem (memAddr s.regs.PBR pc) % 256) s.regs.Y) =
       s.mem (memAddr (s.mem (memAddr s.regs.PBR ((pc + 1) % 65536)) % 256)
         s.regs.X) % 256 ∧
     (execOp Op.MVN s pc).cyclesSpent = s.cyclesSpent + 6 ∧
     (execOp Op.MVN s pc).regs.S = s.regs.S ∧
     (execOp Op.MVN s pc).pins = s.pins) ∧
    ((execOp Op.MVP s pc).regs.A = (65535 + s.regs.A) % 65536 ∧
     (execOp Op.MVP s pc).regs.X =
       (if s.regs.P.index = true then CLEM_UTIL_set16_lo s.regs.X (65535 + s.regs.X)
        else (65535 + s.regs.X) % 65536) ∧
     (execOp Op.MVP s pc).regs.Y =
       (if s.regs.P.index = true then CLEM_UTIL_set16_lo s.regs.Y (65535 + s.regs.Y)
        else (65535 + s.regs.Y) % 65536) ∧
     (execOp Op.MVP s pc).regs.DBR = s.mem (memAddr s.regs.PBR pc) % 256 ∧
     (execOp Op.MVP s pc).regs.PC =
       (if (65535 + s.regs.A) % 65536 ≠ 65535 then s.regs.PC % 65536
        else (pc + 2) % 65536) ∧
     (execOp Op.MVP s pc).mem
         (memAddr (s.mem (memAddr s.regs.PBR pc) % 256) s.regs.Y) =
       s.mem (memAddr (s.mem (memAddr s.regs.PBR ((pc + 1) % 65536)) % 256)
         s.regs.X) % 256 ∧
     (execOp Op.MVP s pc).cyclesSpent = s.cyclesSpent + 6 ∧
     (execOp Op.MVP s pc).regs.S = s.regs.S ∧
     (execOp Op.MVP s pc).pins = s.pins) := by
  constructor <;>
  · by_cases hx : s.regs.P.index = true <;>
      simp only [execOp, _clem_read_pba, clem_read, clem_write, _clem_cycle, endInstr,
        memAddr, hx, eq_self_iff_true, if_true, if_false, ite_true, ite_false,
        ne_eq, Bool.false_eq_true] <;>
      and_intros <;>
      first
        | trivial
        | omega
        | (split <;> omega)

/-- The machine after the first step call with resb_in low and the state
machine outside Reset: registers and pins forced to the reset
configuration, two cycles charged, reset counter moved from 3 to 2. -/
def resetStep1 (m : Machine) : Machine :=
  { m with
    stateType := CPUStateType.Reset,
    regs := { m.regs with
      D := 0, DBR := 0, PBR := 0,
      S := m.regs.S % 256 + 256,
      X := m.regs.X % 256, Y := m.regs.Y % 256,
      P := { m.regs.P with
        memAcc := true, index := true, irqDisable := true,
        decimal := false, carry := false } },
    pins := { m.pins with resbIn := false, emulation := true, readyOut := true },
    enabled := true,
    cyclesSpent := m.cyclesSpent + 2,
    resbCounter := 2 }

/-- The machine after a step call with resb_in low, already in Reset,
counter at 2: one cycle charged, counter at 1. -/
def resetStep2 (m : Machine) : Machine :=
  { m with cyclesSpent := m.cyclesSpent + 1, resbCounter := 1 }

/-- The machine after the step call that brings the reset counter to 0:
one cycle charged and resb_in auto-deasserted. -/
def resetStep3 (m : Machine) : Machine :=
  { m with
    cyclesSpent := m.cyclesSpent + 1,
    resbCounter := 0,
    pins := { m.pins with resbIn := true } }

/-- With resb_in low, the state machine outside Reset and the counter at
3, one step call produces exactly resetStep1. -/
theorem emulate_resb_low_entry (m : Machine) (h1 : m.pins.resbIn = false)
    (h2 : m.stateType ≠ CPUStateType.Reset) (h3 : m.resbCounter = 3) :
    clemens_emulate_cpu m = resetStep1 m := by
  obtain ⟨regs, pins, en, st, cyc, mm, me0, me1, fb, ts, rc⟩ := m
  obtain ⟨resb, irqb, emu, rdy⟩ := pins
  replace h1 : resb = false := h1
  replace h3 : rc = 3 := h3
  subst h1 h3
  replace h2 : ¬(st = CPUStateType.Reset) := h2
  norm_num [clemens_emulate_cpu, _clem_cycle, resetStep1, h2]

/-- With resb_in low, the state machine in Reset and the counter at 2,
one step call produces exactly resetStep2. -/
theorem emulate_resb_low_mid (m : Machine) (h1 : m.pins.resbIn = false)
    (h2 : m.stateType = CPUStateType.Reset) (h3 : m.resbCounter = 2) :
    clemens_emulate_cpu m = resetStep2 m := by
  obtain ⟨regs, pins, en, st, cyc, mm, me0, me1, fb, ts, rc⟩ := m
  obtain ⟨resb, irqb, emu, rdy⟩ := pins
  replace h1 : resb = false := h1
  replace h2 : st = CPUStateType.Reset := h2
  replace h3 : rc = 2 := h3
  subst h1 h2 h3
  norm_num [clemens_emulate_cpu, _clem_cycle, resetStep2]

/-- With resb_in low, the state machine in Reset and the counter at 1,
one step call produces exactly resetStep3. -/
theorem emulate_resb_low_last (m : Machine) (h1 : m.pins.resbIn = false)
    (h2 : m.stateType = CPUStateType.Reset) (h3 : m.resbCounter = 1) :
    clemens_emulate_cpu m = resetStep3 m := by
  obtain ⟨regs, pins, en, st, cyc, mm, me0, me1, fb, ts, rc⟩ := m
  obtain ⟨resb, irqb, emu, rdy⟩ := pins
  replace h1 : resb = false := h1
  replace h2 : st = CPUStateType.Reset := h2
  replace h3 : rc = 1 := h3
  subst h1 h2 h3
  norm_num [clemens_emulate_cpu, _clem_cycle, resetStep3]

/-- With resb_in released, the core enabled, the state machine in Reset
and the emulation pin set, the step call performs the reset vector load:
PC comes from bank-0 FFFC (low) and FFFD (high), the pins, the status
register, PBR, DBR, D and the stack high byte are preserved, and the
machine moves to Execute. -/
theorem emulate_reset_vector_load (m : Machine) (h1 : m.pins.resbIn = true)
    (h2 : m.enabled = true) (h3 : m.stateType = CPUStateType.Reset)
    (h4 : m.pins.emulation = true) :
    (clemens_emulate_cpu m).regs.PC =
      m.mem 65533 % 256 * 256 + m.mem 65532 % 256 ∧
    (clemens_emulate_cpu m).pins = m.pins ∧
    (clemens_emulate_cpu m).regs.P = m.regs.P ∧
    (clemens_emulate_cpu m).regs.PBR = m.regs.PBR ∧
    (clemens_emulate_cpu m).regs.DBR = m.regs.DBR ∧
    (clemens_emulate_cpu m).regs.D = m.regs.D ∧
    (clemens_emulate_cpu m).regs.S / 256 = m.regs.S / 256 ∧
    (clemens_emulate_cpu m).stateType = CPUStateType.Execute := by
  obtain ⟨regs, pins, en, st, cyc, mm, me0, me1, fb, ts, rc⟩ := m
  obtain ⟨resb, irqb, emu, rdy⟩ := pins
  replace h1 : resb = true := h1
  replace h2 : en = true := h2
  replace h3 : st = CPUStateType.Reset := h3
  replace h4 : emu = true := h4
  subst h1 h2 h3 h4
  refine ⟨?_, ?_, ?_, ?_, ?_, ?_, ?_, ?_⟩ <;>
    norm_num [clemens_emulate_cpu, clem_read, _clem_cycle, _cpu_sp_dec2, _cpu_sp_dec,
      CLEM_UTIL_set16_lo, _clem_read_interrupt_vector, memAddr,
      CLEM_6502_RESET_VECTOR_LO_ADDR, CLEM_6502_RESET_VECTOR_HI_ADDR] <;>
    first
      | trivial
      | omega

/-- C5: holding resb_in low across three step calls (with the reset
counter at 3) and letting the auto-deassert release it, the fourth call
performs the reset: PC is loaded from the bank-0 vector FFFC (low byte)
and FFFD (high byte), emulation, M, X and I are set, the D flag is
clear, PBR, DBR and the D register are zero, the stack high byte is
0x01, and the machine is in the Execute state. -/
theorem reset_sequence_loads_vector (s : Machine)
    (h1 : s.pins.resbIn = false) (h2 : s.resbCounter = 3)
    (h3 : s.stateType ≠ CPUStateType.Reset) :
    (clemens_emulate_cpu (clemens_emulate_cpu (clemens_emulate_cpu (clemens_emulate_cpu s)))).regs.PC =
      s.mem 0xFFFD % 256 * 256 + s.mem 0xFFFC % 256 ∧
    (clemens_emulate_cpu (clemens_emulate_cpu (clemens_emulate_cpu (clemens_emulate_cpu s)))).pins.emulation = true ∧
    (clemens_emulate_cpu (clemens_emulate_cpu (clemens_emulate_cpu (clemens_emulate_cpu s)))).regs.P.memAcc = true ∧
    (clemens_emulate_cpu (clemens_emulate_cpu (clemens_emulate_cpu (clemens_emulate_cpu s)))).regs.P.index = true ∧
    (clemens_emulate_cpu (clemens_emulate_cpu (clemens_emulate_cpu (clemens_emulate_cpu s)))).regs.P.irqDisable = true ∧
    (clemens_emulate_cpu (clemens_emulate_cpu (clemens_emulate_cpu (clemens_emulate_cpu s)))).regs.P.decimal = false ∧
    (clemens_emulate_cpu (clemens_emulate_cpu (clemens_emulate_cpu (clemens_emulate_cpu s)))).regs.PBR = 0 ∧
    (clemens_emulate_cpu (clemens_emulate_cpu (clemens_emulate_cpu (clemens_emulate_cpu s)))).regs.DBR = 0 ∧
    (clemens_emulate_cpu (clemens_emulate_cpu (clemens_emulate_cpu (clemens_emulate_cpu s)))).regs.D = 0 ∧
    (clemens_emulate_cpu (clemens_emulate_cpu (clemens_emulate_cpu (clemens_emulate_cpu s)))).regs.S / 256 = 1 ∧
    (clemens_emulate_cpu (clemens_emulate_cpu (clemens_emulate_cpu (clemens_emulate_cpu s)))).stateType = CPUStateType.Execute := by
  rw [emulate_resb_low_entry s h1 h3 h2,
      emulate_resb_low_mid (resetStep1 s) rfl rfl rfl,
      emulate_resb_low_last (resetStep2 (resetStep1 s)) rfl rfl rfl]
  obtain ⟨hPC, hpins, hP, hPBR, hDBR, hD, hS, hst⟩ :=
    emulate_reset_vector_load (resetStep3 (resetStep2 (resetStep1 s))) rfl rfl rfl rfl
  refine ⟨hPC, ?_, ?_, ?_, ?_, ?_, hPBR, hDBR, hD, ?_, hst⟩
  · rw [hpins]; rfl
  · rw [hP]; rfl
  · rw [hP]; rfl
  · rw [hP]; rfl
  · rw [hP]; rfl
  · rw [hS]
    show (s.regs.S % 256 + 256) / 256 = 1
    omega

/-- The concrete machine for the reset sequence: resb_in held low, reset
counter 3, state Execute, vector bytes 0x62 at FFFC and 0xFA at FFFD. -/
def resetSeqMachine : Machine :=
  { sampleMachine CPUStateType.Execute true
      (fun a => if a = 65532 then 0x62 else if a = 65533 then 0xFA else 0) with
    pins := ⟨false, true, true, true⟩,
    resbCounter := 3 }

/-- C5 witness: the reset sequence applied to the concrete machine, with
the hypotheses discharged by evaluation. -/
theorem reset_sequence_loads_vector_witness :
    resetSeqMachine.pins.resbIn = false ∧
    resetSeqMachine.resbCounter = 3 ∧
    resetSeqMachine.stateType ≠ CPUStateType.Reset ∧
    ((clemens_emulate_cpu (clemens_emulate_cpu (clemens_emulate_cpu (clemens_emulate_cpu resetSeqMachine)))).regs.PC =
      resetSeqMachine.mem 0xFFFD % 256 * 256 + resetSeqMachine.mem 0xFFFC % 256 ∧
    (clemens_emulate_cpu (clemens_emulate_cpu (clemens_emulate_cpu (clemens_emulate_cpu resetSeqMachine)))).pins.emulation = true ∧
    (clemens_emulate_cpu (clemens_emulate_cpu (clemens_emulate_cpu (clemens_emulate_cpu resetSeqMachine)))).regs.P.memAcc = true ∧
    (clemens_emulate_cpu (clemens_emulate_cpu (clemens_emulate_cpu (clemens_emulate_cpu resetSeqMachine)))).regs.P.index = true ∧
    (clemens_emulate_cpu (clemens_emulate_cpu (clemens_emulate_cpu (clemens_emulate_cpu resetSeqMachine)))).regs.P.irqDisable = true ∧
    (clemens_emulate_cpu (clemens_emulate_cpu (clemens_emulate_cpu (clemens_emulate_cpu resetSeqMachine)))).regs.P.decimal = false ∧
    (clemens_emulate_cpu (clemens_emulate_cpu (clemens_emulate_cpu (clemens_emulate_cpu resetSeqMachine)))).regs.PBR = 0 ∧
    (clemens_emulate_cpu (clemens_emulate_cpu (clemens_emulate_cpu (clemens_emulate_cpu resetSeqMachine)))).regs.DBR = 0 ∧
    (clemens_emulate_cpu (clemens_emulate_cpu (clemens_emulate_cpu (clemens_emulate_cpu resetSeqMachine)))).regs.D = 0 ∧
    (clemens_emulate_cpu (clemens_emulate_cpu (clemens_emulate_cpu (clemens_emulate_cpu resetSeqMachine)))).regs.S / 256 = 1 ∧
    (clemens_emulate_cpu (clemens_emulate_cpu (clemens_emulate_cpu (clemens_emulate_cpu resetSeqMachine)))).stateType = CPUStateType.Execute) :=
  ⟨by decide, by decide, by decide,
   reset_sequence_loads_vector resetSeqMachine (by decide) (by decide) (by decide)⟩

end Clemens
